import Mathlib

/-!
# Verification of the PCI device state-transition engine

Shallow embedding of `nova/objects/pci_device.py`: the `PciDevice` record,
its state-transition methods (`claim`, `allocate`, `free`, `remove`),
the discovery sync (`update_device`), version downgrade
(`obj_make_compatible`) and the derived accessors over `extra_info`.

Python objects are modelled as immutable records; a mutating method
becomes a function returning the updated records.  An exception becomes
an `Except` error value.  Where a method mutates state *before* raising
(`free`'s bookkeeping `StopIteration`), the returned record carries both
the post-state and the outcome so the partial mutation stays visible.
-/

/-- Device statuses (`fields.PciDeviceStatus`); the set of values is listed in
the source's version history ("available/claimed/allocated/deleted/removed"
plus the 1.5 additions UNCLAIMABLE and UNAVAILABLE). -/
inductive PciDeviceStatus where
  | available
  | claimed
  | allocated
  | unclaimable
  | unavailable
  | removed
  | deleted
deriving DecidableEq, Repr

/-- Device types (`fields.PciDeviceType`): standard PCI device, SR-IOV
physical function, SR-IOV virtual function, and the 1.7 addition vDPA. -/
inductive PciDeviceType where
  | standard
  | sriov_pf
  | sriov_vf
  | vdpa
deriving DecidableEq, Repr

/-- The exceptions the engine can raise (`nova.exception` classes), plus the
built-in Python exceptions reachable from the modelled code paths. -/
inductive PciError where
  | invalidStatus      -- exception.PciDeviceInvalidStatus
  | vfInvalidStatus    -- exception.PciDeviceVFInvalidStatus
  | pfInvalidStatus    -- exception.PciDevicePFInvalidStatus
  | invalidOwner       -- exception.PciDeviceInvalidOwner
  | stopIteration      -- Python StopIteration from next() on an empty generator
  | valueError         -- json decoding failure in jsonutils.loads
  | attributeError     -- .get(...) on a non-dict value
  | objectActionError  -- base.raise_on_too_new_values failure
deriving DecidableEq, Repr

/-- JSON values, for `extra_info` blobs handled through `jsonutils`.
Numbers are modelled as integers (no modelled code path depends on
fractional numbers). -/
inductive Json where
  | null
  | bool (b : Bool)
  | num (n : Int)
  | str (s : String)
  | arr (xs : List Json)
  | obj (kvs : List (String × Json))

deriving instance DecidableEq for Except

/-- The `PciDevice` object: the persisted fields of the source's `fields`
table that the modelled methods read or write.  `instance_uuid = none`
covers both the unset field and an explicit null (the two are only ever
distinguished jointly with a non-null check, `remove`'s
`'instance_uuid' in self and self.instance_uuid is not None`). -/
structure PciDevice where
  id : Nat
  uuid : Option String := none
  compute_node_id : Option Int := none
  address : String
  vendor_id : String := ""
  product_id : String := ""
  dev_type : PciDeviceType
  status : PciDeviceStatus
  dev_id : Option String := none
  label : Option String := none
  instance_uuid : Option String := none
  request_id : Option String := none
  extra_info : List (String × String) := []
  numa_node : Option Int := none
  parent_addr : Option String := none
deriving DecidableEq, Repr

/-- `PciDevice.is_available`. -/
def PciDevice.is_available (d : PciDevice) : Bool :=
  d.status = PciDeviceStatus.available

/-- The instance argument of `allocate`/`free`: its uuid and its pci-device
collection.  The collection stores device copies; only their ids are ever
inspected (`dev.id == self.id`), so it is abstracted to the list of ids. -/
structure InstanceObj where
  uuid : String
  pci_devices : List Nat := []
deriving DecidableEq, Repr

/-- `PciDevice._bulk_update_status`. -/
def bulk_update_status (devs : List PciDevice) (s : PciDeviceStatus) :
    List PciDevice :=
  devs.map (fun d => { d with status := s })

/-- Result of `claim`: the mutated device plus the (possibly mutated)
in-memory tree neighbours it touched (`self.child_devices`,
`self.parent_device`). -/
structure ClaimResult where
  self : PciDevice
  children : List PciDevice
  parent : Option PciDevice
deriving DecidableEq, Repr

/-- `claim`'s `non_free_dependants`: the children that are not available. -/
def nonFreeDependants (children : List PciDevice) : List PciDevice :=
  children.filter (fun vf => ! vf.is_available)

/-- `PciDevice.claim(instance_uuid)`.  `children` and `parent` stand for the
`self.child_devices` / `self.parent_device` in-memory links.  All raises in
the source happen before any mutation, so an all-or-nothing `Except` is
faithful. -/
def claimDev (self : PciDevice) (children : List PciDevice)
    (parent : Option PciDevice) (instance_uuid : String) :
    Except PciError ClaimResult :=
  if self.status ≠ PciDeviceStatus.available then
    .error .invalidStatus
  else if self.dev_type = PciDeviceType.sriov_pf then
    -- non_free_dependants = [vf for vf in vfs_list if not vf.is_available()]
    if (nonFreeDependants children).isEmpty ∨
       (nonFreeDependants children).all (fun c =>
        c.status = PciDeviceStatus.unclaimable ∨
        c.status = PciDeviceStatus.unavailable) then
      -- (the second disjunct is the tolerated-inconsistency path of bug
      -- 1969496: only a warning is logged and the claim proceeds)
      .ok ⟨{ self with status := .claimed, instance_uuid := some instance_uuid },
           bulk_update_status children .unclaimable, parent⟩
    else
      .error .vfInvalidStatus
  else if self.dev_type = PciDeviceType.sriov_vf ∨
          self.dev_type = PciDeviceType.vdpa then
    match parent with
    | some p =>
      if p.status = PciDeviceStatus.available ∨
         p.status = PciDeviceStatus.unclaimable ∨
         p.status = PciDeviceStatus.unavailable then
        let p' := if p.status = PciDeviceStatus.available then
            { p with status := .unclaimable } else p
        .ok ⟨{ self with status := .claimed, instance_uuid := some instance_uuid },
             children, some p'⟩
      else
        .error .pfInvalidStatus
    | none =>
      -- parent not found: logged, not fatal
      .ok ⟨{ self with status := .claimed, instance_uuid := some instance_uuid },
           children, none⟩
  else
    .ok ⟨{ self with status := .claimed, instance_uuid := some instance_uuid },
         children, parent⟩

/-- Result of `allocate`: device, tree neighbours, and the caller's instance
with the device appended to its collection. -/
structure AllocateResult where
  self : PciDevice
  children : List PciDevice
  parent : Option PciDevice
  inst : InstanceObj
deriving DecidableEq, Repr

/-- The post-state of `self` after a successful `allocate(instance)`. -/
def allocatedSelf (self : PciDevice) (inst : InstanceObj) : PciDevice :=
  { self with status := PciDeviceStatus.allocated,
              instance_uuid := some inst.uuid }

/-- `instance['pci_devices'].append(copy.copy(self))`. -/
def instWithDev (inst : InstanceObj) (i : Nat) : InstanceObj :=
  { inst with pci_devices := inst.pci_devices ++ [i] }

/-- `PciDevice.allocate(instance)`. -/
def allocateDev (self : PciDevice) (children : List PciDevice)
    (parent : Option PciDevice) (inst : InstanceObj) :
    Except PciError AllocateResult :=
  if self.status ≠ PciDeviceStatus.available ∧
     self.status ≠ PciDeviceStatus.claimed then
    .error .invalidStatus
  else if self.status = PciDeviceStatus.claimed ∧
          self.instance_uuid ≠ some inst.uuid then
    .error .invalidOwner
  else if self.dev_type = PciDeviceType.sriov_pf then
    if children.all (fun vf =>
        vf.status = PciDeviceStatus.available ∨
        vf.status = PciDeviceStatus.unclaimable) then
      .ok ⟨allocatedSelf self inst, bulk_update_status children .unavailable,
           parent, instWithDev inst self.id⟩
    else
      .error .vfInvalidStatus
  else if self.dev_type = PciDeviceType.sriov_vf ∨
          self.dev_type = PciDeviceType.vdpa then
    match parent with
    | some p =>
      if p.status = PciDeviceStatus.available ∨
         p.status = PciDeviceStatus.unclaimable ∨
         p.status = PciDeviceStatus.unavailable then
        .ok ⟨allocatedSelf self inst, children,
             some { p with status := .unavailable }, instWithDev inst self.id⟩
      else
        .error .pfInvalidStatus
    | none => .ok ⟨allocatedSelf self inst, children, none,
                   instWithDev inst self.id⟩
  else
    .ok ⟨allocatedSelf self inst, children, parent, instWithDev inst self.id⟩

/-- Result of `free`: the post-state of every object the call touched plus
the outcome.  `result` is `.ok free_devs` (the ids of the returned changed
devices, in return order) or the raised error.  The post-state is carried
even when `result` is an error because `free` mutates `self`, its children
and its parent *before* the bookkeeping `next(...)` call that can raise
`StopIteration`. -/
structure FreeResult where
  self : PciDevice
  children : List PciDevice
  parent : Option PciDevice
  inst : Option InstanceObj
  result : Except PciError (List Nat)
deriving DecidableEq, Repr

/-- `PciDevice.free(instance=None)`.  `children` models
`self.child_devices`; `siblings` models `self.parent_device.child_devices`
(read, never written, in the VF branch). -/
def freeDev (self : PciDevice) (children : List PciDevice)
    (parent : Option PciDevice) (siblings : List PciDevice)
    (inst : Option InstanceObj) : FreeResult :=
  if self.status ≠ PciDeviceStatus.allocated ∧
     self.status ≠ PciDeviceStatus.claimed then
    ⟨self, children, parent, inst, .error .invalidStatus⟩
  else if inst.any (fun i => self.instance_uuid ≠ some i.uuid) then
    ⟨self, children, parent, inst, .error .invalidOwner⟩
  else
    let pfCase := self.dev_type = PciDeviceType.sriov_pf
    let children' := if pfCase then bulk_update_status children .available
                     else children
    let fd1 : List Nat := if pfCase then children.map (fun d => d.id) else []
    let vfCase := self.dev_type = PciDeviceType.sriov_vf ∨
                  self.dev_type = PciDeviceType.vdpa
    let parentFreed := vfCase ∧ parent.isSome ∧
        (siblings.filter (fun vf => vf.id ≠ self.id)).all
          (fun vf => vf.is_available)
    let parent' := if parentFreed then
        parent.map (fun p => { p with status := PciDeviceStatus.available })
      else parent
    let fd2 : List Nat := if parentFreed then
        (parent.map (fun p => [p.id])).getD [] else []
    let self' := { self with status := PciDeviceStatus.available,
                             instance_uuid := none, request_id := none }
    let free_devs := fd1 ++ fd2 ++ [self.id]
    if self.status = PciDeviceStatus.allocated then
      match inst with
      | some i =>
        if self.id ∈ i.pci_devices then
          ⟨self', children', parent',
           some { i with pci_devices := i.pci_devices.erase self.id },
           .ok free_devs⟩
        else
          -- next() on an empty generator: StopIteration, after the
          -- status mutations already happened
          ⟨self', children', parent', inst, .error .stopIteration⟩
      | none => ⟨self', children', parent', none, .ok free_devs⟩
    else
      ⟨self', children', parent', inst, .ok free_devs⟩

/-- `PciDevice.remove()`. -/
def removeDev (self : PciDevice) : Except PciError PciDevice :=
  if self.status ≠ PciDeviceStatus.available ∧
     self.status ≠ PciDeviceStatus.unavailable ∧
     self.status ≠ PciDeviceStatus.unclaimable then
    .error .invalidStatus
  else if self.instance_uuid ≠ none then
    .error .invalidOwner
  else
    .ok { self with status := PciDeviceStatus.removed,
                    instance_uuid := none, request_id := none }

/-! ## JSON handling (`oslo_serialization.jsonutils`)

`jsonutils.loads`/`dumps` are standard JSON.  The model below parses the
standard grammar (with integral numbers, and `\"`/`\\`-style escapes taken
as the escaped character); no modelled code path depends on floats or on
exotic escapes.  A malformed document yields `valueError`, like the
`ValueError` that `json.loads` raises. -/

/-- The `{` character (ASCII 123). -/
def lbrace : Char := Char.ofNat 123

/-- The `}` character (ASCII 125). -/
def rbrace : Char := Char.ofNat 125

/-- Drop leading JSON whitespace. -/
def skipWs : List Char → List Char
  | c :: cs =>
    if c = ' ' ∨ c = '\t' ∨ c = '\n' ∨ c = '\r' then skipWs cs else c :: cs
  | [] => []

/-- Split off a maximal run of leading decimal digits. -/
def takeDigits : List Char → (List Char × List Char)
  | c :: cs =>
    if c.isDigit then
      let (ds, r) := takeDigits cs
      (c :: ds, r)
    else ([], c :: cs)
  | [] => ([], [])

/-- Decimal digits to a number. -/
def digitsToNat (ds : List Char) : Nat :=
  ds.foldl (fun a c => a * 10 + (c.toNat - 48)) 0

/-- Scan a JSON string body (the opening quote already consumed); returns
the contents and the remainder after the closing quote. -/
def scanJString : List Char → Except PciError (List Char × List Char)
  | [] => .error .valueError
  | c :: cs =>
    if c = '"' then .ok ([], cs)
    else if c = '\\' then
      match cs with
      | [] => .error .valueError
      | e :: cs' => do
        let (s, r) ← scanJString cs'
        .ok (e :: s, r)
    else do
      let (s, r) ← scanJString cs
      .ok (c :: s, r)

mutual

/-- Parse one JSON value; fuel-bounded recursion (the fuel passed by
`jsonLoads` always suffices for its input). -/
def parseJ : Nat → List Char → Except PciError (Json × List Char)
  | 0, _ => .error .valueError
  | fuel + 1, cs =>
    match skipWs cs with
    | [] => .error .valueError
    | c :: cs' =>
      if c = 'n' then
        match cs' with
        | 'u' :: 'l' :: 'l' :: r => .ok (.null, r)
        | _ => .error .valueError
      else if c = 't' then
        match cs' with
        | 'r' :: 'u' :: 'e' :: r => .ok (.bool true, r)
        | _ => .error .valueError
      else if c = 'f' then
        match cs' with
        | 'a' :: 'l' :: 's' :: 'e' :: r => .ok (.bool false, r)
        | _ => .error .valueError
      else if c = '"' then do
        let (s, r) ← scanJString cs'
        .ok (.str (String.mk s), r)
      else if c = '[' then
        match skipWs cs' with
        | ']' :: r => .ok (.arr [], r)
        | rest => do
          let (xs, r) ← parseJItems fuel rest
          .ok (.arr xs, r)
      else if c = lbrace then
        match skipWs cs' with
        | r0 :: r =>
          if r0 = rbrace then .ok (.obj [], r)
          else do
            let (kvs, r') ← parseJFields fuel (r0 :: r)
            .ok (.obj kvs, r')
        | [] => .error .valueError
      else if c = '-' then
        let (ds, r) := takeDigits cs'
        if ds.isEmpty then .error .valueError
        else .ok (.num (-(digitsToNat ds : Int)), r)
      else if c.isDigit then
        let (ds, r) := takeDigits (c :: cs')
        .ok (.num (digitsToNat ds : Int), r)
      else .error .valueError

/-- Parse array elements up to the closing `]`. -/
def parseJItems : Nat → List Char → Except PciError (List Json × List Char)
  | 0, _ => .error .valueError
  | fuel + 1, cs => do
    let (v, r) ← parseJ fuel cs
    match skipWs r with
    | ',' :: r' => do
      let (vs, r'') ← parseJItems fuel r'
      .ok (v :: vs, r'')
    | ']' :: r' => .ok ([v], r')
    | _ => .error .valueError

/-- Parse object members up to the closing brace. -/
def parseJFields : Nat → List Char →
    Except PciError (List (String × Json) × List Char)
  | 0, _ => .error .valueError
  | fuel + 1, cs =>
    match skipWs cs with
    | '"' :: cs' => do
      let (k, r) ← scanJString cs'
      match skipWs r with
      | ':' :: r' => do
        let (v, r'') ← parseJ fuel r'
        match skipWs r'' with
        | ',' :: r3 => do
          let (kvs, r4) ← parseJFields fuel r3
          .ok ((String.mk k, v) :: kvs, r4)
        | e :: r3 =>
          if e = rbrace then .ok ([(String.mk k, v)], r3)
          else .error .valueError
        | [] => .error .valueError
      | _ => .error .valueError
    | _ => .error .valueError

end

/-- `jsonutils.loads`: parse a full document, rejecting trailing content. -/
def jsonLoads (s : String) : Except PciError Json := do
  let (v, r) ← parseJ (2 * s.length + 2) s.toList
  if (skipWs r).isEmpty then .ok v else .error .valueError

mutual

/-- `jsonutils.dumps`. -/
def dumpJson : Json → String
  | .null => "null"
  | .bool true => "true"
  | .bool false => "false"
  | .num n => toString n
  | .str s => "\"" ++ s ++ "\""
  | .arr xs => "[" ++ dumpJsonList xs ++ "]"
  | .obj kvs => "\x7b" ++ dumpJsonFields kvs ++ "\x7d"

/-- Comma-joined serialization of array elements. -/
def dumpJsonList : List Json → String
  | [] => ""
  | [x] => dumpJson x
  | x :: xs => dumpJson x ++ ", " ++ dumpJsonList xs

/-- Comma-joined serialization of object members. -/
def dumpJsonFields : List (String × Json) → String
  | [] => ""
  | [(k, v)] => "\"" ++ k ++ "\": " ++ dumpJson v
  | (k, v) :: kvs =>
    "\"" ++ k ++ "\": " ++ dumpJson v ++ ", " ++ dumpJsonFields kvs

end

/-- First-occurrence association lookup, as for a Python `dict`. -/
def assocGet (kvs : List (String × String)) (k : String) : Option String :=
  (kvs.find? (fun kv => kv.1 = k)).map (fun kv => kv.2)

/-- `d[k] = v` on an association list standing for a Python `dict`:
replace in place, or append when the key is new. -/
def setAssoc : List (String × String) → String → String →
    List (String × String)
  | [], k, v => [(k, v)]
  | (k', v') :: rest, k, v =>
    if k' = k then (k, v) :: rest else (k', v') :: setAssoc rest k v

/-- `del d[k]` on an association list standing for a Python `dict`. -/
def delAssoc (kvs : List (String × String)) (k : String) :
    List (String × String) :=
  kvs.filter (fun kv => kv.1 ≠ k)

/-- `self.extra_info.get(k, dflt)`. -/
def extraInfoGet (d : PciDevice) (k : String) (dflt : String) : String :=
  (assocGet d.extra_info k).getD dflt

/-- `caps.get(key, default)` where `caps` must be a dict (`AttributeError`
on anything else, as in Python). -/
def jsonGetD (j : Json) (k : String) (dflt : Json) : Except PciError Json :=
  match j with
  | .obj kvs => .ok (((kvs.find? (fun kv => kv.1 = k)).map (fun kv => kv.2)).getD dflt)
  | _ => .error .attributeError

/-- `caps.get(key)` (no default) where `caps` must be a dict. -/
def jsonGetOpt (j : Json) (k : String) : Except PciError (Option Json) :=
  match j with
  | .obj kvs => .ok ((kvs.find? (fun kv => kv.1 = k)).map (fun kv => kv.2))
  | _ => .error .attributeError

/-- `PciDevice.card_serial_number`. -/
def card_serial_number (d : PciDevice) : Except PciError (Option Json) := do
  let caps ← jsonLoads (extraInfoGet d "capabilities" "\x7b\x7d")
  let vpd ← jsonGetD caps "vpd" (.obj [])
  jsonGetOpt vpd "card_serial_number"

/-- `PciDevice.sriov_cap`. -/
def sriov_cap (d : PciDevice) : Except PciError Json := do
  let caps ← jsonLoads (extraInfoGet d "capabilities" "\x7b\x7d")
  jsonGetD caps "sriov" (.obj [])

/-- `PciDevice.mac_address`. -/
def mac_address (d : PciDevice) : Option String :=
  assocGet d.extra_info "mac_address"

/-- `PciDevice.network_caps`. -/
def network_caps (d : PciDevice) : Except PciError Json := do
  let caps ← jsonLoads (extraInfoGet d "capabilities" "\x7b\x7d")
  jsonGetD caps "network" (.arr [])

/-! ## `update_device`: syncing a discovered-attribute dict -/

/-- A value of the heterogeneous `dev_dict` passed to `update_device`:
`None`, a string, an int, an enum member of the two device enums (held
symbolically rather than as its wire string, which lives outside the
excerpt in `nova/objects/fields.py`), or a structured JSON-able value. -/
inductive PyVal where
  | noneV
  | strV (s : String)
  | intV (n : Int)
  | typeV (t : PciDeviceType)
  | statusV (st : PciDeviceStatus)
  | jsonV (j : Json)

/-- JSON image of a `PyVal`, for `jsonutils.dumps` of non-string values
(the enum stand-ins serialize via a symbolic name; no modelled claim
depends on the encoding). -/
def pyValJson : PyVal → Json
  | .noneV => .null
  | .strV s => .str s
  | .intV n => .num n
  | .typeV .standard => .str "type-PCI"
  | .typeV .sriov_pf => .str "type-PF"
  | .typeV .sriov_vf => .str "type-VF"
  | .typeV .vdpa => .str "vdpa"
  | .statusV st => .str (toString (repr st))
  | .jsonV j => j

/-- `v if isinstance(v, str) else jsonutils.dumps(v)`. -/
def pyValData : PyVal → String
  | .strV s => s
  | v => dumpJson (pyValJson v)

/-- `self.fields.keys()`, from the `fields` table of the source. -/
def fieldKeys : List String :=
  ["id", "uuid", "compute_node_id", "address", "vendor_id", "product_id",
   "dev_type", "status", "dev_id", "label", "instance_uuid", "request_id",
   "extra_info", "numa_node", "parent_addr"]

/-- `setattr(self, k, v)` for a field key, split per field.  Well-typed
values are assigned; the typed-field coercion machinery of `NovaObject`
is outside the excerpt, so a value of the wrong shape for its field
leaves the record unchanged (no modelled claim exercises an ill-typed
assignment). -/
def setIdF (d : PciDevice) (v : PyVal) : PciDevice :=
  match v with | .intV n => { d with id := n.toNat } | _ => d

/-- `setattr` leaf for `uuid`. -/
def setUuidF (d : PciDevice) (v : PyVal) : PciDevice :=
  match v with
  | .strV s => { d with uuid := some s }
  | .noneV => { d with uuid := none }
  | _ => d

/-- `setattr` leaf for `compute_node_id`. -/
def setComputeNodeIdF (d : PciDevice) (v : PyVal) : PciDevice :=
  match v with
  | .intV n => { d with compute_node_id := some n }
  | .noneV => { d with compute_node_id := none }
  | _ => d

/-- `setattr` leaf for `address`. -/
def setAddressF (d : PciDevice) (v : PyVal) : PciDevice :=
  match v with | .strV s => { d with address := s } | _ => d

/-- `setattr` leaf for `vendor_id`. -/
def setVendorIdF (d : PciDevice) (v : PyVal) : PciDevice :=
  match v with | .strV s => { d with vendor_id := s } | _ => d

/-- `setattr` leaf for `product_id`. -/
def setProductIdF (d : PciDevice) (v : PyVal) : PciDevice :=
  match v with | .strV s => { d with product_id := s } | _ => d

/-- `setattr` leaf for `dev_type`. -/
def setDevTypeF (d : PciDevice) (v : PyVal) : PciDevice :=
  match v with | .typeV t => { d with dev_type := t } | _ => d

/-- `setattr` leaf for `status`. -/
def setStatusF (d : PciDevice) (v : PyVal) : PciDevice :=
  match v with | .statusV st => { d with status := st } | _ => d

/-- `setattr` leaf for `dev_id`. -/
def setDevIdF (d : PciDevice) (v : PyVal) : PciDevice :=
  match v with
  | .strV s => { d with dev_id := some s }
  | .noneV => { d with dev_id := none }
  | _ => d

/-- `setattr` leaf for `label`. -/
def setLabelF (d : PciDevice) (v : PyVal) : PciDevice :=
  match v with
  | .strV s => { d with label := some s }
  | .noneV => { d with label := none }
  | _ => d

/-- `setattr` leaf for `instance_uuid`. -/
def setInstanceUuidF (d : PciDevice) (v : PyVal) : PciDevice :=
  match v with
  | .strV s => { d with instance_uuid := some s }
  | .noneV => { d with instance_uuid := none }
  | _ => d

/-- `setattr` leaf for `request_id`. -/
def setRequestIdF (d : PciDevice) (v : PyVal) : PciDevice :=
  match v with
  | .strV s => { d with request_id := some s }
  | .noneV => { d with request_id := none }
  | _ => d

/-- `setattr` leaf for `numa_node`. -/
def setNumaNodeF (d : PciDevice) (v : PyVal) : PciDevice :=
  match v with
  | .intV n => { d with numa_node := some n }
  | .noneV => { d with numa_node := none }
  | _ => d

/-- `setattr` leaf for `parent_addr`. -/
def setParentAddrF (d : PciDevice) (v : PyVal) : PciDevice :=
  match v with
  | .strV s => { d with parent_addr := some s }
  | .noneV => { d with parent_addr := none }
  | _ => d

/-- `setattr(self, k, v)`, dispatching on the field key (an `extra_info`
key never reaches here: `update_device` pops it first, matching the
original's absence of an assignment arm for it). -/
def setField (d : PciDevice) (k : String) (v : PyVal) : PciDevice :=
  if k = "id" then setIdF d v
  else if k = "uuid" then setUuidF d v
  else if k = "compute_node_id" then setComputeNodeIdF d v
  else if k = "address" then setAddressF d v
  else if k = "vendor_id" then setVendorIdF d v
  else if k = "product_id" then setProductIdF d v
  else if k = "dev_type" then setDevTypeF d v
  else if k = "status" then setStatusF d v
  else if k = "dev_id" then setDevIdF d v
  else if k = "label" then setLabelF d v
  else if k = "instance_uuid" then setInstanceUuidF d v
  else if k = "request_id" then setRequestIdF d v
  else if k = "numa_node" then setNumaNodeF d v
  else if k = "parent_addr" then setParentAddrF d v
  else d

/-- `PciDevice.update_device(dev_dict)`.  The dict is mutated by the
method (keys popped, `parent_addr` defaulted), so the updated dict is
returned alongside the updated device. -/
def update_device (d : PciDevice) (dev_dict : List (String × PyVal)) :
    PciDevice × List (String × PyVal) :=
  -- no_changes = ('status', 'instance_uuid', 'id', 'extra_info'); pop each
  let dd1 := dev_dict.filter (fun kv =>
    kv.1 ≠ "status" ∧ kv.1 ≠ "instance_uuid" ∧ kv.1 ≠ "id" ∧
    kv.1 ≠ "extra_info")
  -- dev_dict.setdefault('parent_addr') (appends a None entry when absent)
  let dd2 := if dd1.any (fun kv => kv.1 = "parent_addr") then dd1
             else dd1 ++ [("parent_addr", PyVal.noneV)]
  let d1 := dd2.foldl (fun acc kv =>
    if kv.1 ∈ fieldKeys then setField acc kv.1 kv.2
    else { acc with
           extra_info := setAssoc acc.extra_info kv.1 (pyValData kv.2) }) d
  -- tags_to_clean = ["managed", "live_migratable"]
  let d2 := (["managed", "live_migratable"]).foldl (fun acc tag =>
    if (¬ dd2.any (fun kv => kv.1 = tag)) ∧
       acc.extra_info.any (fun kv => kv.1 = tag) then
      { acc with extra_info := delAssoc acc.extra_info tag }
    else acc) d1
  (d2, dd2)

/-! ## `obj_make_compatible`: serializing for an older consumer -/

/-- The serialized primitive of a `PciDevice`, restricted to the keys
`obj_make_compatible` touches; for each, `none` means the key is absent
from the primitive and `some v` that it is present with value `v`
(nullable fields then hold an inner `Option`). -/
structure PciDevicePrimitive where
  request_id : Option (Option String) := none
  parent_addr : Option (Option String) := none
  status : Option PciDeviceStatus := none
  dev_type : Option PciDeviceType := none
  uuid : Option (Option String) := none
  extra_info : Option (List (String × String)) := none
deriving DecidableEq, Repr

/-- `target_version < (major, minor)` on version tuples. -/
def verLt (a b : Nat × Nat) : Bool :=
  a.1 < b.1 ∨ (a.1 = b.1 ∧ a.2 < b.2)

/-- Modelled from the spec: `base.raise_on_too_new_values` (defined in
`nova/objects/base.py`, which is outside the excerpt) applied to the
`status` field — "fields introduced after that consumer's version ...
raise if an enum value unknown to that version is present". -/
def raiseOnTooNewStatus (prim : PciDevicePrimitive)
    (added : List PciDeviceStatus) : Except PciError Unit :=
  match prim.status with
  | some st => if st ∈ added then .error .objectActionError else .ok ()
  | none => .ok ()

/-- Modelled from the spec: `base.raise_on_too_new_values` applied to the
`dev_type` field. -/
def raiseOnTooNewDevType (prim : PciDevicePrimitive)
    (added : List PciDeviceType) : Except PciError Unit :=
  match prim.dev_type with
  | some t => if t ∈ added then .error .objectActionError else .ok ()
  | none => .ok ()

/-- The `target_version < (1, 2)` block of `obj_make_compatible`:
drop `request_id`. -/
def omcDropRequestId (prim0 : PciDevicePrimitive) (tv : Nat × Nat) :
    PciDevicePrimitive :=
  if verLt tv (1, 2) ∧ prim0.request_id.isSome then
    { prim0 with request_id := none }
  else prim0

/-- The `target_version < (1, 4)` block of `obj_make_compatible`: fold a
non-null `parent_addr` into `extra_info['phys_function']` and delete the
key.  The `extra_info` update is observable only when the primitive
already has an `extra_info` entry: `primitive.get('extra_info', {})`
otherwise creates a fresh dict that is mutated and dropped. -/
def omcDropParentAddr (prim1 : PciDevicePrimitive) (tv : Nat × Nat) :
    PciDevicePrimitive :=
  if verLt tv (1, 4) ∧ prim1.parent_addr.isSome then
    match prim1.parent_addr with
    | some (some pa) =>
      { prim1 with
        extra_info :=
          prim1.extra_info.map (fun ei => setAssoc ei "phys_function" pa),
        parent_addr := none }
    | _ => { prim1 with parent_addr := none }
  else prim1

/-- The `target_version < (1, 6)` block of `obj_make_compatible`:
drop `uuid`. -/
def omcDropUuid (prim2 : PciDevicePrimitive) (tv : Nat × Nat) :
    PciDevicePrimitive :=
  if verLt tv (1, 6) ∧ prim2.uuid.isSome then
    { prim2 with uuid := none }
  else prim2

/-- `PciDevice.obj_make_compatible(primitive, target_version)`.  Note the
source guards the `< (1, 5)` status check with `'parent_addr' in
primitive`, evaluated *after* the `< (1, 4)` block may have deleted that
key. -/
def obj_make_compatible (prim0 : PciDevicePrimitive) (tv : Nat × Nat) :
    Except PciError PciDevicePrimitive := do
  let prim2 := omcDropParentAddr (omcDropRequestId prim0 tv) tv
  let _ ← if verLt tv (1, 5) ∧ prim2.parent_addr.isSome then
      raiseOnTooNewStatus prim2 [.unclaimable, .unavailable]
    else .ok ()
  let prim3 := omcDropUuid prim2 tv
  let _ ← if verLt tv (1, 7) ∧ prim3.dev_type.isSome then
      raiseOnTooNewDevType prim3 [.vdpa]
    else .ok ()
  .ok prim3

/-! ## Device collections and the in-memory tree

The parent/child links are not fields; the tree is rebuilt on load from
`parent_addr`/`address`.  Modelled from the spec (the tree builder lives
in the resource tracker, outside the excerpt): `parent_device` is "set
when a VF's `parent_addr` resolves to a loaded PF", and `child_devices`
is the list of VF records whose `parent_addr` equals the device's
`address`. -/

/-- `c` is linked as a child of `p` in the rebuilt tree. -/
def isChildOf (c p : PciDevice) : Prop :=
  (c.dev_type = PciDeviceType.sriov_vf ∨ c.dev_type = PciDeviceType.vdpa) ∧
  c.parent_addr = some p.address

instance (c p : PciDevice) : Decidable (isChildOf c p) := by
  unfold isChildOf; infer_instance

/-- The `child_devices` link of `d`, rebuilt from the collection `w`. -/
def childDevices (w : List PciDevice) (d : PciDevice) : List PciDevice :=
  w.filter (fun c => isChildOf c d)

/-- The `parent_device` link of `d`, rebuilt from the collection `w`. -/
def parentDevice (w : List PciDevice) (d : PciDevice) : Option PciDevice :=
  if d.dev_type = PciDeviceType.sriov_vf ∨ d.dev_type = PciDeviceType.vdpa then
    w.find? (fun p => p.dev_type = PciDeviceType.sriov_pf ∧
                      some p.address = d.parent_addr)
  else none

/-- The device of the collection carrying a given id. -/
def findDev (w : List PciDevice) (i : Nat) : Option PciDevice :=
  w.find? (fun d => d.id = i)

/-- Write a set of mutated devices back into the collection, matching by
id (each entry of `upd` is the post-state of the device with its id). -/
def replaceDevs (w upd : List PciDevice) : List PciDevice :=
  w.map (fun d => ((upd.find? (fun u => u.id = d.id)).getD d))

/-- One engine call on a device of the collection, named by id. -/
inductive Op where
  | claimOp (i : Nat) (u : String)
  | allocateOp (i : Nat) (inst : InstanceObj)
  | freeOp (i : Nat) (inst : Option InstanceObj)
  | removeOp (i : Nat)
  | updateOp (i : Nat) (dev_dict : List (String × PyVal))

/-- Apply one call to the collection: resolve the device and its tree
links, run the method, and write every record it touched back.  `none`
when the call raises (or names no device of the collection). -/
def applyOp (w : List PciDevice) : Op → Option (List PciDevice)
  | .claimOp i u => do
    let d ← findDev w i
    match claimDev d (childDevices w d) (parentDevice w d) u with
    | .error _ => none
    | .ok r => some (replaceDevs w (r.self :: r.children ++ r.parent.toList))
  | .allocateOp i inst => do
    let d ← findDev w i
    match allocateDev d (childDevices w d) (parentDevice w d) inst with
    | .error _ => none
    | .ok r => some (replaceDevs w (r.self :: r.children ++ r.parent.toList))
  | .freeOp i inst => do
    let d ← findDev w i
    let parent := parentDevice w d
    let siblings := match parent with
      | some p => childDevices w p
      | none => []
    let r := freeDev d (childDevices w d) parent siblings inst
    match r.result with
    | .error _ => none
    | .ok _ => some (replaceDevs w (r.self :: r.children ++ r.parent.toList))
  | .removeOp i => do
    let d ← findDev w i
    match removeDev d with
    | .error _ => none
    | .ok d' => some (replaceDevs w [d'])
  | .updateOp i dev_dict => do
    let d ← findDev w i
    some (replaceDevs w [(update_device d dev_dict).1])

/-- Run a call sequence; `none` as soon as one call raises. -/
def runOps (w : List PciDevice) : List Op → Option (List PciDevice)
  | [] => some w
  | op :: ops => do
    let w' ← applyOp w op
    runOps w' ops

/-- A collection of freshly created devices: each is AVAILABLE with no
owner (`create` sets `status = AVAILABLE` and never an owner), ids are
distinct (assigned by storage) and addresses are distinct (a bus address
is unique within a node). -/
def InitWorld (w : List PciDevice) : Prop :=
  w.Pairwise (fun a b => a.id ≠ b.id ∧ a.address ≠ b.address) ∧
  ∀ d ∈ w, d.status = PciDeviceStatus.available ∧ d.instance_uuid = none

instance (w : List PciDevice) : Decidable (InitWorld w) := by
  unfold InitWorld; infer_instance

/-- The owner/status coupling of claim sentence C1 for one device. -/
def UuidStatusOk (d : PciDevice) : Prop :=
  d.instance_uuid ≠ none ↔
  (d.status = PciDeviceStatus.claimed ∨ d.status = PciDeviceStatus.allocated)

instance (d : PciDevice) : Decidable (UuidStatusOk d) := by
  unfold UuidStatusOk; infer_instance

/-- An `update_device` call that leaves the identity and tree-linkage
fields of the device (`dev_type`, `address`, `parent_addr`) as they were;
the other operations never change those fields. -/
def LinkSafe (w : List PciDevice) : Op → Prop
  | .updateOp i dev_dict =>
    ∀ d, findDev w i = some d →
      (update_device d dev_dict).1.dev_type = d.dev_type ∧
      (update_device d dev_dict).1.address = d.address ∧
      (update_device d dev_dict).1.parent_addr = d.parent_addr
  | _ => True

/-- Worlds reachable through successfully completing calls whose
`update_device` steps are link-safe. -/
inductive ReachableSafe : List PciDevice → List PciDevice → Prop
  | refl (w : List PciDevice) : ReachableSafe w w
  | step {w1 w2 w3 : List PciDevice} {op : Op} :
      ReachableSafe w1 w2 → LinkSafe w2 op → applyOp w2 op = some w3 →
      ReachableSafe w1 w3

/-! ## Claim C2: the status gate of `claim` -/

/-- The post-state of `self` after a successful `claim(u)`. -/
def claimedSelf (self : PciDevice) (u : String) : PciDevice :=
  { self with status := PciDeviceStatus.claimed, instance_uuid := some u }

/-- On an AVAILABLE device, `claim` either succeeds (with the device set
CLAIMED and owned) or raises one of the two dependent-state errors. -/
theorem claimDev_cases (self : PciDevice) (children : List PciDevice)
    (parent : Option PciDevice) (u : String)
    (hav : self.status = PciDeviceStatus.available) :
    (∃ cs p, claimDev self children parent u =
        .ok ⟨claimedSelf self u, cs, p⟩) ∨
    claimDev self children parent u = .error .vfInvalidStatus ∨
    claimDev self children parent u = .error .pfInvalidStatus := by
  rw [claimDev.eq_def, if_neg (not_not_intro hav)]
  split
  · split
    · exact .inl ⟨_, _, rfl⟩
    · exact .inr (.inl rfl)
  · split
    · split
      · split
        · exact .inl ⟨_, _, rfl⟩
        · exact .inr (.inr rfl)
      · exact .inl ⟨_, _, rfl⟩
    · exact .inl ⟨_, _, rfl⟩

/-- **C2.** `claim(instance_uuid)` raises `InvalidStatus` exactly when the
device's status at entry is not AVAILABLE (a dependent in a bad state
raises the distinct `VFInvalidStatus`/`PFInvalidStatus` instead), and
whenever `claim` returns normally the device is CLAIMED with
`instance_uuid` equal to the supplied argument. -/
theorem claim_invalidStatus_iff_and_post (self : PciDevice)
    (children : List PciDevice) (parent : Option PciDevice) (u : String) :
    (claimDev self children parent u = .error .invalidStatus ↔
      self.status ≠ PciDeviceStatus.available) ∧
    (∀ r, claimDev self children parent u = .ok r →
      r.self.status = PciDeviceStatus.claimed ∧
      r.self.instance_uuid = some u) := by
  constructor
  · constructor
    · intro h hav
      rcases claimDev_cases self children parent u hav with ⟨cs, p, hok⟩ | he | he <;>
        simp_all
    · intro hav
      rw [claimDev.eq_def, if_pos hav]
  · intro r h
    by_cases hav : self.status = PciDeviceStatus.available
    · rcases claimDev_cases self children parent u hav with ⟨cs, p, hok⟩ | he | he <;>
        rw [h] at * <;> simp_all [claimedSelf]
    · rw [claimDev.eq_def, if_pos hav] at h
      exact absurd h (by simp)

/-- Witness for C2 at a concrete claimable standard device. -/
theorem claim_invalidStatus_iff_and_post_witness :
    (claimDev { id := 7, address := "w2", dev_type := PciDeviceType.standard,
                status := PciDeviceStatus.available } [] none "uw2" =
      .error .invalidStatus ↔ False) ∧
    (∀ r, claimDev { id := 7, address := "w2",
                     dev_type := PciDeviceType.standard,
                     status := PciDeviceStatus.available } [] none "uw2" =
        .ok r →
      r.self.status = PciDeviceStatus.claimed ∧
      r.self.instance_uuid = some "uw2") := by
  have h := claim_invalidStatus_iff_and_post
    { id := 7, address := "w2", dev_type := PciDeviceType.standard,
      status := PciDeviceStatus.available } [] none "uw2"
  exact ⟨by simpa using h.1, h.2⟩

/-! ## Claim C3: `free` on a PF frees every child -/

/-- Every member of a bulk status update carries the written status. -/
theorem bulk_update_status_mem {devs : List PciDevice} {s : PciDeviceStatus}
    {c : PciDevice} (hc : c ∈ bulk_update_status devs s) : c.status = s := by
  rcases List.mem_map.mp hc with ⟨a, _, rfl⟩
  rfl

/-- The post-state of `self` after a successful `free()`. -/
def freedSelf (self : PciDevice) : PciDevice :=
  { self with status := PciDeviceStatus.available,
              instance_uuid := none, request_id := none }

/-- Shape of `free` on an SRIOV_PF device meeting the precondition: the
children are bulk-set AVAILABLE, the parent link is untouched, the device
is freed, and a normal return yields exactly children-then-self. -/
theorem freeDev_pf_parts (self : PciDevice) (children : List PciDevice)
    (parent : Option PciDevice) (siblings : List PciDevice)
    (inst : Option InstanceObj)
    (hpf : self.dev_type = PciDeviceType.sriov_pf)
    (hst : self.status = PciDeviceStatus.allocated ∨
           self.status = PciDeviceStatus.claimed)
    (hown : ∀ i, inst = some i → self.instance_uuid = some i.uuid) :
    (freeDev self children parent siblings inst).children =
      bulk_update_status children PciDeviceStatus.available ∧
    (freeDev self children parent siblings inst).parent = parent ∧
    (freeDev self children parent siblings inst).self = freedSelf self ∧
    ∀ l, (freeDev self children parent siblings inst).result = .ok l →
      l = children.map (fun d => d.id) ++ [self.id] := by
  have h1 : ¬(self.status ≠ PciDeviceStatus.allocated ∧
              self.status ≠ PciDeviceStatus.claimed) := by
    rcases hst with h | h <;> simp [h]
  have h2 : ¬(inst.any (fun i => self.instance_uuid ≠ some i.uuid) = true) := by
    cases inst with
    | none => simp
    | some i => simp [hown i rfl]
  have hvf : ¬(self.dev_type = PciDeviceType.sriov_vf ∨
               self.dev_type = PciDeviceType.vdpa) := by
    rw [hpf]; simp
  rw [freeDev.eq_def, if_neg h1, if_neg h2]
  simp only [hpf, hvf, if_true, if_false, false_and, and_false]
  refine ⟨?_, ?_, ?_, ?_⟩ <;>
    · split <;> (try split) <;> (try split) <;>
        simp_all [bulk_update_status, freedSelf]

/-- **C3.** When `free()` meets its precondition on an SRIOV_PF device,
every child is set AVAILABLE whatever its prior status, and the returned
changed-device list is exactly the children followed by the freed device
itself (by ids). -/
theorem free_pf_children_available (self : PciDevice)
    (children : List PciDevice) (parent : Option PciDevice)
    (siblings : List PciDevice) (inst : Option InstanceObj)
    (hpf : self.dev_type = PciDeviceType.sriov_pf)
    (hst : self.status = PciDeviceStatus.allocated ∨
           self.status = PciDeviceStatus.claimed)
    (hown : ∀ i, inst = some i → self.instance_uuid = some i.uuid) :
    (∀ c ∈ (freeDev self children parent siblings inst).children,
        c.status = PciDeviceStatus.available) ∧
    (∀ l, (freeDev self children parent siblings inst).result = .ok l →
        l = children.map (fun d => d.id) ++ [self.id]) := by
  obtain ⟨hch, -, -, hres⟩ :=
    freeDev_pf_parts self children parent siblings inst hpf hst hown
  refine ⟨fun c hc => ?_, hres⟩
  rw [hch] at hc
  exact bulk_update_status_mem hc

/-- Witness for C3: a claimed PF with one unavailable child, freed with no
instance argument. -/
theorem free_pf_children_available_witness :
    (∀ c ∈ (freeDev
        { id := 11, address := "w3", dev_type := PciDeviceType.sriov_pf,
          status := PciDeviceStatus.claimed, instance_uuid := some "uw3" }
        [{ id := 12, address := "w3v", dev_type := PciDeviceType.sriov_vf,
           status := PciDeviceStatus.unavailable,
           parent_addr := some "w3" }] none [] none).children,
      c.status = PciDeviceStatus.available) ∧
    (∀ l, (freeDev
        { id := 11, address := "w3", dev_type := PciDeviceType.sriov_pf,
          status := PciDeviceStatus.claimed, instance_uuid := some "uw3" }
        [{ id := 12, address := "w3v", dev_type := PciDeviceType.sriov_vf,
           status := PciDeviceStatus.unavailable,
           parent_addr := some "w3" }] none [] none).result = .ok l →
      l = [12, 11]) :=
  free_pf_children_available
    { id := 11, address := "w3", dev_type := PciDeviceType.sriov_pf,
      status := PciDeviceStatus.claimed, instance_uuid := some "uw3" }
    [{ id := 12, address := "w3v", dev_type := PciDeviceType.sriov_vf,
       status := PciDeviceStatus.unavailable, parent_addr := some "w3" }]
    none [] none rfl (Or.inr rfl) (fun i h => by cases h)

/-! ## Claim C4: `allocate` on a VF/vDPA pushes the parent to UNAVAILABLE -/

/-- **C4.** On an SRIOV_VF/VDPA device whose status/owner precondition
holds and whose parent is resolved, `allocate` raises `PFInvalidStatus`
exactly when the parent is outside {AVAILABLE, UNCLAIMABLE, UNAVAILABLE};
on success the parent is set UNAVAILABLE unconditionally and the device
becomes ALLOCATED owned by the instance. -/
theorem allocate_vf_parent_unavailable (self : PciDevice)
    (children : List PciDevice) (p : PciDevice) (inst : InstanceObj)
    (htype : self.dev_type = PciDeviceType.sriov_vf ∨
             self.dev_type = PciDeviceType.vdpa)
    (hst : self.status = PciDeviceStatus.available ∨
           self.status = PciDeviceStatus.claimed)
    (hown : self.status = PciDeviceStatus.claimed →
            self.instance_uuid = some inst.uuid) :
    (allocateDev self children (some p) inst = .error .pfInvalidStatus ↔
      ¬(p.status = PciDeviceStatus.available ∨
        p.status = PciDeviceStatus.unclaimable ∨
        p.status = PciDeviceStatus.unavailable)) ∧
    (∀ r, allocateDev self children (some p) inst = .ok r →
      r.parent = some { p with status := PciDeviceStatus.unavailable } ∧
      r.self.status = PciDeviceStatus.allocated ∧
      r.self.instance_uuid = some inst.uuid) := by
  have h1 : ¬(self.status ≠ PciDeviceStatus.available ∧
              self.status ≠ PciDeviceStatus.claimed) := by
    rcases hst with h | h <;> simp [h]
  have h2 : ¬(self.status = PciDeviceStatus.claimed ∧
              self.instance_uuid ≠ some inst.uuid) := by
    rintro ⟨hc, hne⟩
    exact hne (hown hc)
  have hnpf : ¬ self.dev_type = PciDeviceType.sriov_pf := by
    rcases htype with h | h <;> simp [h]
  by_cases hp : (p.status = PciDeviceStatus.available ∨
                 p.status = PciDeviceStatus.unclaimable ∨
                 p.status = PciDeviceStatus.unavailable)
  · have heq : allocateDev self children (some p) inst =
        .ok ⟨allocatedSelf self inst, children,
             some { p with status := PciDeviceStatus.unavailable },
             instWithDev inst self.id⟩ := by
      rw [allocateDev.eq_def]
      simp only [if_neg h1, if_neg h2, if_neg hnpf, if_pos htype, if_pos hp]
    rw [heq]
    refine ⟨by simp [hp], ?_⟩
    rintro r hr
    cases hr
    exact ⟨rfl, rfl, rfl⟩
  · have heq : allocateDev self children (some p) inst =
        .error .pfInvalidStatus := by
      rw [allocateDev.eq_def]
      simp only [if_neg h1, if_neg h2, if_neg hnpf, if_pos htype, if_neg hp]
    rw [heq]
    exact ⟨by simp [hp], fun r hr => absurd hr (by simp)⟩

/-- Witness for C4: a claimed VF owned by the allocating instance, with an
available parent. -/
theorem allocate_vf_parent_unavailable_witness :
    (allocateDev
        { id := 21, address := "w4v", dev_type := PciDeviceType.sriov_vf,
          status := PciDeviceStatus.claimed, instance_uuid := some "uw4",
          parent_addr := some "w4" } []
        (some { id := 20, address := "w4", dev_type := PciDeviceType.sriov_pf,
                status := PciDeviceStatus.available })
        { uuid := "uw4" } = .error .pfInvalidStatus ↔
      ¬(PciDeviceStatus.available = PciDeviceStatus.available ∨
        PciDeviceStatus.available = PciDeviceStatus.unclaimable ∨
        PciDeviceStatus.available = PciDeviceStatus.unavailable)) ∧
    (∀ r, allocateDev
        { id := 21, address := "w4v", dev_type := PciDeviceType.sriov_vf,
          status := PciDeviceStatus.claimed, instance_uuid := some "uw4",
          parent_addr := some "w4" } []
        (some { id := 20, address := "w4", dev_type := PciDeviceType.sriov_pf,
                status := PciDeviceStatus.available })
        { uuid := "uw4" } = .ok r →
      r.parent = some { id := 20, address := "w4",
                        dev_type := PciDeviceType.sriov_pf,
                        status := PciDeviceStatus.unavailable } ∧
      r.self.status = PciDeviceStatus.allocated ∧
      r.self.instance_uuid = some "uw4") :=
  allocate_vf_parent_unavailable
    { id := 21, address := "w4v", dev_type := PciDeviceType.sriov_vf,
      status := PciDeviceStatus.claimed, instance_uuid := some "uw4",
      parent_addr := some "w4" } []
    { id := 20, address := "w4", dev_type := PciDeviceType.sriov_pf,
      status := PciDeviceStatus.available }
    { uuid := "uw4" } (Or.inl rfl) (Or.inr rfl) (fun _ => rfl)

/-! ## Claim C5: `free` on a VF frees the parent only when siblings are free -/

/-- **C5.** On an SRIOV_VF/VDPA device meeting `free`'s precondition with
a resolved parent: when every sibling other than the freed device is
AVAILABLE, the parent is set AVAILABLE and returned (the list is exactly
parent-then-self); otherwise the parent is returned unchanged and the
list holds only the freed device. -/
theorem free_vf_parent_iff (self : PciDevice) (children : List PciDevice)
    (p : PciDevice) (siblings : List PciDevice) (inst : Option InstanceObj)
    (htype : self.dev_type = PciDeviceType.sriov_vf ∨
             self.dev_type = PciDeviceType.vdpa)
    (hst : self.status = PciDeviceStatus.allocated ∨
           self.status = PciDeviceStatus.claimed)
    (hown : ∀ i, inst = some i → self.instance_uuid = some i.uuid) :
    ((siblings.filter (fun vf => vf.id ≠ self.id)).all
        (fun vf => vf.is_available) = true →
      (freeDev self children (some p) siblings inst).parent =
        some { p with status := PciDeviceStatus.available } ∧
      ∀ l, (freeDev self children (some p) siblings inst).result = .ok l →
        l = [p.id, self.id]) ∧
    ((siblings.filter (fun vf => vf.id ≠ self.id)).all
        (fun vf => vf.is_available) = false →
      (freeDev self children (some p) siblings inst).parent = some p ∧
      ∀ l, (freeDev self children (some p) siblings inst).result = .ok l →
        l = [self.id]) := by
  have h1 : ¬(self.status ≠ PciDeviceStatus.allocated ∧
              self.status ≠ PciDeviceStatus.claimed) := by
    rcases hst with h | h <;> simp [h]
  have h2 : ¬(inst.any (fun i => self.instance_uuid ≠ some i.uuid) = true) := by
    cases inst with
    | none => simp
    | some i => simp [hown i rfl]
  have hnpf : ¬ self.dev_type = PciDeviceType.sriov_pf := by
    rcases htype with h | h <;> simp [h]
  rw [freeDev.eq_def, if_neg h1, if_neg h2]
  constructor <;> intro hsib <;>
    · simp only [eq_true htype, eq_false hnpf, hsib, if_true, if_false,
        ite_true, ite_false, Option.isSome_some, and_true, true_and,
        and_false, false_and, eq_self_iff_true, Option.map_some]
      refine ⟨?_, ?_⟩ <;>
        · split <;> (try split) <;> (try split) <;>
            simp_all [bulk_update_status, freedSelf]

/-- Witness for C5: a claimed VF, available sibling, parent returned. -/
theorem free_vf_parent_iff_witness :
    ((([{ id := 32, address := "w5s", dev_type := PciDeviceType.sriov_vf,
          status := PciDeviceStatus.available, parent_addr := some "w5" }] :
        List PciDevice).filter (fun vf => vf.id ≠ 31)).all
        (fun vf => vf.is_available) = true →
      (freeDev
        { id := 31, address := "w5v", dev_type := PciDeviceType.sriov_vf,
          status := PciDeviceStatus.claimed, instance_uuid := some "uw5",
          parent_addr := some "w5" } []
        (some { id := 30, address := "w5", dev_type := PciDeviceType.sriov_pf,
                status := PciDeviceStatus.unclaimable })
        [{ id := 32, address := "w5s", dev_type := PciDeviceType.sriov_vf,
           status := PciDeviceStatus.available, parent_addr := some "w5" }]
        none).parent =
        some { id := 30, address := "w5", dev_type := PciDeviceType.sriov_pf,
               status := PciDeviceStatus.available } ∧
      ∀ l, (freeDev
        { id := 31, address := "w5v", dev_type := PciDeviceType.sriov_vf,
          status := PciDeviceStatus.claimed, instance_uuid := some "uw5",
          parent_addr := some "w5" } []
        (some { id := 30, address := "w5", dev_type := PciDeviceType.sriov_pf,
                status := PciDeviceStatus.unclaimable })
        [{ id := 32, address := "w5s", dev_type := PciDeviceType.sriov_vf,
           status := PciDeviceStatus.available, parent_addr := some "w5" }]
        none).result = .ok l → l = [30, 31]) ∧
    ((([{ id := 32, address := "w5s", dev_type := PciDeviceType.sriov_vf,
          status := PciDeviceStatus.available, parent_addr := some "w5" }] :
        List PciDevice).filter (fun vf => vf.id ≠ 31)).all
        (fun vf => vf.is_available) = false →
      (freeDev
        { id := 31, address := "w5v", dev_type := PciDeviceType.sriov_vf,
          status := PciDeviceStatus.claimed, instance_uuid := some "uw5",
          parent_addr := some "w5" } []
        (some { id := 30, address := "w5", dev_type := PciDeviceType.sriov_pf,
                status := PciDeviceStatus.unclaimable })
        [{ id := 32, address := "w5s", dev_type := PciDeviceType.sriov_vf,
           status := PciDeviceStatus.available, parent_addr := some "w5" }]
        none).parent =
        some { id := 30, address := "w5", dev_type := PciDeviceType.sriov_pf,
               status := PciDeviceStatus.unclaimable } ∧
      ∀ l, (freeDev
        { id := 31, address := "w5v", dev_type := PciDeviceType.sriov_vf,
          status := PciDeviceStatus.claimed, instance_uuid := some "uw5",
          parent_addr := some "w5" } []
        (some { id := 30, address := "w5", dev_type := PciDeviceType.sriov_pf,
                status := PciDeviceStatus.unclaimable })
        [{ id := 32, address := "w5s", dev_type := PciDeviceType.sriov_vf,
           status := PciDeviceStatus.available, parent_addr := some "w5" }]
        none).result = .ok l → l = [31]) :=
  free_vf_parent_iff
    { id := 31, address := "w5v", dev_type := PciDeviceType.sriov_vf,
      status := PciDeviceStatus.claimed, instance_uuid := some "uw5",
      parent_addr := some "w5" } []
    { id := 30, address := "w5", dev_type := PciDeviceType.sriov_pf,
      status := PciDeviceStatus.unclaimable }
    [{ id := 32, address := "w5s", dev_type := PciDeviceType.sriov_vf,
       status := PciDeviceStatus.available, parent_addr := some "w5" }]
    none (Or.inl rfl) (Or.inr rfl) (fun i h => by cases h)

/-! ## Claim C7: `remove` on an owned device -/

/-- **C7 counterexample.** A CLAIMED device with an owner makes `remove()`
raise `InvalidStatus` (the status gate fires first), not the
`InvalidOwner` that the claim asserts "regardless of reported status". -/
theorem remove_owned_claimed_counterexample :
    ({ id := 41, address := "c7", dev_type := PciDeviceType.standard,
       status := PciDeviceStatus.claimed,
       instance_uuid := some "u7" } : PciDevice).instance_uuid = some "u7" ∧
    removeDev { id := 41, address := "c7", dev_type := PciDeviceType.standard,
                status := PciDeviceStatus.claimed,
                instance_uuid := some "u7" } = .error .invalidStatus ∧
    PciError.invalidStatus ≠ PciError.invalidOwner := by
  refine ⟨rfl, rfl, by decide⟩

/-- **C7 amended.** `remove()` on a device whose `instance_uuid` is set and
non-null always raises, but the exception depends on the reported status:
`InvalidOwner` when the status is in {AVAILABLE, UNAVAILABLE, UNCLAIMABLE},
and `InvalidStatus` (checked first) for any other status. -/
theorem remove_owned_raises (d : PciDevice) (u : String)
    (hu : d.instance_uuid = some u) :
    (d.status = PciDeviceStatus.available ∨
     d.status = PciDeviceStatus.unavailable ∨
     d.status = PciDeviceStatus.unclaimable →
      removeDev d = .error .invalidOwner) ∧
    (¬(d.status = PciDeviceStatus.available ∨
       d.status = PciDeviceStatus.unavailable ∨
       d.status = PciDeviceStatus.unclaimable) →
      removeDev d = .error .invalidStatus) := by
  constructor
  · intro hs
    have h1 : ¬(d.status ≠ PciDeviceStatus.available ∧
                d.status ≠ PciDeviceStatus.unavailable ∧
                d.status ≠ PciDeviceStatus.unclaimable) := by
      rcases hs with h | h | h <;> simp [h]
    unfold removeDev
    rw [if_neg h1, if_pos (by simp [hu])]
  · intro hs
    push_neg at hs
    unfold removeDev
    rw [if_pos hs]

/-- Witness for the amended C7 at an owned AVAILABLE device. -/
theorem remove_owned_raises_witness :
    (PciDeviceStatus.available = PciDeviceStatus.available ∨
     PciDeviceStatus.available = PciDeviceStatus.unavailable ∨
     PciDeviceStatus.available = PciDeviceStatus.unclaimable →
      removeDev { id := 42, address := "c7w",
                  dev_type := PciDeviceType.standard,
                  status := PciDeviceStatus.available,
                  instance_uuid := some "u7w" } = .error .invalidOwner) ∧
    (¬(PciDeviceStatus.available = PciDeviceStatus.available ∨
       PciDeviceStatus.available = PciDeviceStatus.unavailable ∨
       PciDeviceStatus.available = PciDeviceStatus.unclaimable) →
      removeDev { id := 42, address := "c7w",
                  dev_type := PciDeviceType.standard,
                  status := PciDeviceStatus.available,
                  instance_uuid := some "u7w" } = .error .invalidStatus) :=
  remove_owned_raises
    { id := 42, address := "c7w", dev_type := PciDeviceType.standard,
      status := PciDeviceStatus.available, instance_uuid := some "u7w" }
    "u7w" rfl

/-! ## Claim C10: the dict side effects of `update_device` -/

/-- `setattr` through `setField` changes only the field its key names:
for any key of the `fields` table other than `status`, `instance_uuid`
and `id`, those three fields are preserved. -/
theorem setField_preserves_of_mem (d : PciDevice) (k : String) (v : PyVal)
    (hk : k ∈ fieldKeys) (h1 : k ≠ "status") (h2 : k ≠ "instance_uuid")
    (h3 : k ≠ "id") :
    (setField d k v).status = d.status ∧
    (setField d k v).instance_uuid = d.instance_uuid ∧
    (setField d k v).id = d.id := by
  fin_cases hk <;>
    first
      | exact absurd rfl h1
      | exact absurd rfl h2
      | exact absurd rfl h3
      | (simp only [setField, if_true, if_false]
         cases v <;>
           simp [setIdF, setUuidF, setComputeNodeIdF, setAddressF,
             setVendorIdF, setProductIdF, setDevTypeF, setStatusF,
             setDevIdF, setLabelF, setInstanceUuidF, setRequestIdF,
             setNumaNodeF, setParentAddrF])

/-- The main sync fold of `update_device` preserves `status`,
`instance_uuid` and `id` whenever no entry of the dict names them (the
popped keys never do). -/
theorem update_fold_preserves (l : List (String × PyVal)) (d : PciDevice)
    (h : ∀ kv ∈ l, kv.1 ≠ "status" ∧ kv.1 ≠ "instance_uuid" ∧ kv.1 ≠ "id") :
    (l.foldl (fun acc kv =>
      if kv.1 ∈ fieldKeys then setField acc kv.1 kv.2
      else { acc with
             extra_info := setAssoc acc.extra_info kv.1 (pyValData kv.2) })
      d).status = d.status ∧
    (l.foldl (fun acc kv =>
      if kv.1 ∈ fieldKeys then setField acc kv.1 kv.2
      else { acc with
             extra_info := setAssoc acc.extra_info kv.1 (pyValData kv.2) })
      d).instance_uuid = d.instance_uuid ∧
    (l.foldl (fun acc kv =>
      if kv.1 ∈ fieldKeys then setField acc kv.1 kv.2
      else { acc with
             extra_info := setAssoc acc.extra_info kv.1 (pyValData kv.2) })
      d).id = d.id := by
  induction l generalizing d with
  | nil => exact ⟨rfl, rfl, rfl⟩
  | cons kv rest ih =>
    obtain ⟨h1, h2, h3⟩ := h kv (List.mem_cons_self kv rest)
    have hstep :
        (if kv.1 ∈ fieldKeys then setField d kv.1 kv.2
         else { d with
                extra_info := setAssoc d.extra_info kv.1
                  (pyValData kv.2) }).status = d.status ∧
        (if kv.1 ∈ fieldKeys then setField d kv.1 kv.2
         else { d with
                extra_info := setAssoc d.extra_info kv.1
                  (pyValData kv.2) }).instance_uuid = d.instance_uuid ∧
        (if kv.1 ∈ fieldKeys then setField d kv.1 kv.2
         else { d with
                extra_info := setAssoc d.extra_info kv.1
                  (pyValData kv.2) }).id = d.id := by
      split
      · exact setField_preserves_of_mem d kv.1 kv.2 (by assumption) h1 h2 h3
      · exact ⟨rfl, rfl, rfl⟩
    obtain ⟨hs, hu, hi⟩ := hstep
    obtain ⟨is_, iu, ii⟩ :=
      ih _ (fun x hx => h x (List.mem_cons_of_mem kv hx))
    simp only [List.foldl_cons]
    exact ⟨is_.trans hs, iu.trans hu, ii.trans hi⟩

/-- The tag-pruning fold of `update_device` touches only `extra_info`. -/
theorem prune_fold_preserves (dd2 : List (String × PyVal))
    (tags : List String) (d1 : PciDevice) :
    (tags.foldl (fun acc tag =>
      if (¬ dd2.any (fun kv => kv.1 = tag)) ∧
         acc.extra_info.any (fun kv => kv.1 = tag) then
        { acc with extra_info := delAssoc acc.extra_info tag }
      else acc) d1).status = d1.status ∧
    (tags.foldl (fun acc tag =>
      if (¬ dd2.any (fun kv => kv.1 = tag)) ∧
         acc.extra_info.any (fun kv => kv.1 = tag) then
        { acc with extra_info := delAssoc acc.extra_info tag }
      else acc) d1).instance_uuid = d1.instance_uuid ∧
    (tags.foldl (fun acc tag =>
      if (¬ dd2.any (fun kv => kv.1 = tag)) ∧
         acc.extra_info.any (fun kv => kv.1 = tag) then
        { acc with extra_info := delAssoc acc.extra_info tag }
      else acc) d1).id = d1.id := by
  induction tags generalizing d1 with
  | nil => exact ⟨rfl, rfl, rfl⟩
  | cons t ts ih =>
    simp only [List.foldl_cons]
    obtain ⟨is_, iu, ii⟩ := ih (if (¬ dd2.any (fun kv => kv.1 = t)) ∧
        d1.extra_info.any (fun kv => kv.1 = t) then
      { d1 with extra_info := delAssoc d1.extra_info t } else d1)
    have hstep :
        (if (¬ dd2.any (fun kv => kv.1 = t)) ∧
            d1.extra_info.any (fun kv => kv.1 = t) then
          { d1 with extra_info := delAssoc d1.extra_info t }
         else d1).status = d1.status ∧
        (if (¬ dd2.any (fun kv => kv.1 = t)) ∧
            d1.extra_info.any (fun kv => kv.1 = t) then
          { d1 with extra_info := delAssoc d1.extra_info t }
         else d1).instance_uuid = d1.instance_uuid ∧
        (if (¬ dd2.any (fun kv => kv.1 = t)) ∧
            d1.extra_info.any (fun kv => kv.1 = t) then
          { d1 with extra_info := delAssoc d1.extra_info t }
         else d1).id = d1.id := by
      split <;> exact ⟨rfl, rfl, rfl⟩
    exact ⟨is_.trans hstep.1, iu.trans hstep.2.1, ii.trans hstep.2.2⟩

/-- `status`, `instance_uuid` and `id` are never changed by
`update_device`. -/
theorem update_device_preserves (d : PciDevice)
    (dd : List (String × PyVal)) :
    (update_device d dd).1.status = d.status ∧
    (update_device d dd).1.instance_uuid = d.instance_uuid ∧
    (update_device d dd).1.id = d.id := by
  unfold update_device
  have hkeys : ∀ kv ∈ (let dd1 := dd.filter (fun kv =>
        kv.1 ≠ "status" ∧ kv.1 ≠ "instance_uuid" ∧ kv.1 ≠ "id" ∧
        kv.1 ≠ "extra_info")
      if dd1.any (fun kv => kv.1 = "parent_addr") then dd1
      else dd1 ++ [("parent_addr", PyVal.noneV)]),
      kv.1 ≠ "status" ∧ kv.1 ≠ "instance_uuid" ∧ kv.1 ≠ "id" := by
    intro kv hkv
    simp only at hkv
    split at hkv
    · have := (List.mem_filter.mp hkv).2
      simp only [decide_eq_true_eq] at this
      exact ⟨this.1, this.2.1, this.2.2.1⟩
    · rcases List.mem_append.mp hkv with hin | hin
      · have := (List.mem_filter.mp hin).2
        simp only [decide_eq_true_eq] at this
        exact ⟨this.1, this.2.1, this.2.2.1⟩
      · rcases List.mem_singleton.mp hin with rfl
        exact ⟨by decide, by decide, by decide⟩
  obtain ⟨ms, mu, mi⟩ := update_fold_preserves _ d hkeys
  obtain ⟨ps, pu, pi⟩ := prune_fold_preserves _ ["managed", "live_migratable"]
    ((let dd1 := dd.filter (fun kv =>
        kv.1 ≠ "status" ∧ kv.1 ≠ "instance_uuid" ∧ kv.1 ≠ "id" ∧
        kv.1 ≠ "extra_info")
      if dd1.any (fun kv => kv.1 = "parent_addr") then dd1
      else dd1 ++ [("parent_addr", PyVal.noneV)]).foldl (fun acc kv =>
      if kv.1 ∈ fieldKeys then setField acc kv.1 kv.2
      else { acc with
             extra_info := setAssoc acc.extra_info kv.1 (pyValData kv.2) })
      d)
  exact ⟨ps.trans ms, pu.trans mu, pi.trans mi⟩

/-- The dict returned by `update_device` (the caller's mutated
`dev_dict`), spelled out. -/
theorem update_device_snd (d : PciDevice) (dd : List (String × PyVal)) :
    (update_device d dd).2 =
      (if (dd.filter (fun kv =>
            kv.1 ≠ "status" ∧ kv.1 ≠ "instance_uuid" ∧ kv.1 ≠ "id" ∧
            kv.1 ≠ "extra_info")).any (fun kv => kv.1 = "parent_addr") then
        dd.filter (fun kv =>
            kv.1 ≠ "status" ∧ kv.1 ≠ "instance_uuid" ∧ kv.1 ≠ "id" ∧
            kv.1 ≠ "extra_info")
      else dd.filter (fun kv =>
            kv.1 ≠ "status" ∧ kv.1 ≠ "instance_uuid" ∧ kv.1 ≠ "id" ∧
            kv.1 ≠ "extra_info") ++ [("parent_addr", PyVal.noneV)]) := rfl

/-- **C10.** `update_device(dev_dict)` visibly mutates the caller's dict:
the keys `status`, `instance_uuid`, `id` and `extra_info` are gone from
it afterwards, a `parent_addr: None` entry is inserted when the key was
absent, and the device's own `status` and `instance_uuid` are never
changed by the call. -/
theorem update_device_dict_side_effects (d : PciDevice)
    (dd : List (String × PyVal)) :
    (∀ kv ∈ (update_device d dd).2,
        kv.1 ≠ "status" ∧ kv.1 ≠ "instance_uuid" ∧ kv.1 ≠ "id" ∧
        kv.1 ≠ "extra_info") ∧
    (dd.any (fun kv => kv.1 = "parent_addr") = false →
      ("parent_addr", PyVal.noneV) ∈ (update_device d dd).2) ∧
    (update_device d dd).1.status = d.status ∧
    (update_device d dd).1.instance_uuid = d.instance_uuid := by
  refine ⟨?_, ?_, (update_device_preserves d dd).1,
    (update_device_preserves d dd).2.1⟩
  · intro kv hkv
    rw [update_device_snd] at hkv
    split at hkv
    · have h2 := (List.mem_filter.mp hkv).2
      simp only [decide_eq_true_eq] at h2
      exact h2
    · rcases List.mem_append.mp hkv with hin | hin
      · have h2 := (List.mem_filter.mp hin).2
        simp only [decide_eq_true_eq] at h2
        exact h2
      · rcases List.mem_singleton.mp hin with rfl
        exact ⟨by decide, by decide, by decide, by decide⟩
  · intro hany
    rw [update_device_snd]
    have hno : (dd.filter (fun kv =>
        kv.1 ≠ "status" ∧ kv.1 ≠ "instance_uuid" ∧ kv.1 ≠ "id" ∧
        kv.1 ≠ "extra_info")).any (fun kv => kv.1 = "parent_addr") = false := by
      rw [List.any_eq_false]
      intro x hx
      have hmem := List.mem_filter.mp hx
      have := List.any_eq_false.mp hany x hmem.1
      simpa using this
    have hcond : ¬((dd.filter (fun kv =>
        kv.1 ≠ "status" ∧ kv.1 ≠ "instance_uuid" ∧ kv.1 ≠ "id" ∧
        kv.1 ≠ "extra_info")).any (fun kv => kv.1 = "parent_addr") = true) := by
      rw [hno]
      simp
    rw [if_neg hcond]
    exact List.mem_append.mpr (Or.inr (List.mem_singleton.mpr rfl))

/-- Witness for C10 on a dict holding a forbidden key, a field key and an
unknown key, against a claimed device. -/
theorem update_device_dict_side_effects_witness :
    (∀ kv ∈ (update_device
        { id := 51, address := "w10", dev_type := PciDeviceType.standard,
          status := PciDeviceStatus.claimed, instance_uuid := some "u10" }
        [("status", PyVal.statusV PciDeviceStatus.available),
         ("vendor_id", PyVal.strV "v"), ("weird", PyVal.intV 3)]).2,
        kv.1 ≠ "status" ∧ kv.1 ≠ "instance_uuid" ∧ kv.1 ≠ "id" ∧
        kv.1 ≠ "extra_info") ∧
    (([("status", PyVal.statusV PciDeviceStatus.available),
       ("vendor_id", PyVal.strV "v"), ("weird", PyVal.intV 3)] :
        List (String × PyVal)).any (fun kv => kv.1 = "parent_addr") = false →
      ("parent_addr", PyVal.noneV) ∈ (update_device
        { id := 51, address := "w10", dev_type := PciDeviceType.standard,
          status := PciDeviceStatus.claimed, instance_uuid := some "u10" }
        [("status", PyVal.statusV PciDeviceStatus.available),
         ("vendor_id", PyVal.strV "v"), ("weird", PyVal.intV 3)]).2) ∧
    (update_device
        { id := 51, address := "w10", dev_type := PciDeviceType.standard,
          status := PciDeviceStatus.claimed, instance_uuid := some "u10" }
        [("status", PyVal.statusV PciDeviceStatus.available),
         ("vendor_id", PyVal.strV "v"), ("weird", PyVal.intV 3)]).1.status =
      PciDeviceStatus.claimed ∧
    (update_device
        { id := 51, address := "w10", dev_type := PciDeviceType.standard,
          status := PciDeviceStatus.claimed, instance_uuid := some "u10" }
        [("status", PyVal.statusV PciDeviceStatus.available),
         ("vendor_id", PyVal.strV "v"), ("weird", PyVal.intV 3)]).1.instance_uuid =
      some "u10" :=
  update_device_dict_side_effects
    { id := 51, address := "w10", dev_type := PciDeviceType.standard,
      status := PciDeviceStatus.claimed, instance_uuid := some "u10" }
    [("status", PyVal.statusV PciDeviceStatus.available),
     ("vendor_id", PyVal.strV "v"), ("weird", PyVal.intV 3)]

/-! ## Claim C9: the `extra_info` accessors on malformed data -/

/-- **C9 counterexample.** A `capabilities` entry holding the non-JSON
string `"x"` makes all three accessors raise (`jsonutils.loads` raises
`ValueError`), contradicting the claim that they return an empty or
default value for non-JSON content. -/
theorem accessors_malformed_capabilities_counterexample :
    card_serial_number
      { id := 61, address := "c9", dev_type := PciDeviceType.standard,
        status := PciDeviceStatus.available,
        extra_info := [("capabilities", "x")] } = .error .valueError ∧
    sriov_cap
      { id := 61, address := "c9", dev_type := PciDeviceType.standard,
        status := PciDeviceStatus.available,
        extra_info := [("capabilities", "x")] } = .error .valueError ∧
    network_caps
      { id := 61, address := "c9", dev_type := PciDeviceType.standard,
        status := PciDeviceStatus.available,
        extra_info := [("capabilities", "x")] } = .error .valueError :=
  ⟨rfl, rfl, rfl⟩

/-- **C9 amended.** The accessors are pure reads that tolerate a *missing*
`capabilities` entry, returning the defaults (`None`, `{}`, `[]`); a
present but non-JSON or non-object value makes them raise instead. -/
theorem accessors_missing_capabilities (d : PciDevice)
    (h : assocGet d.extra_info "capabilities" = none) :
    card_serial_number d = .ok none ∧
    sriov_cap d = .ok (.obj []) ∧
    network_caps d = .ok (.arr []) := by
  have hx : extraInfoGet d "capabilities" "\x7b\x7d" = "\x7b\x7d" := by
    unfold extraInfoGet
    rw [h]
    rfl
  refine ⟨?_, ?_, ?_⟩
  · unfold card_serial_number
    rw [hx]
    rfl
  · unfold sriov_cap
    rw [hx]
    rfl
  · unfold network_caps
    rw [hx]
    rfl

/-- Witness for the amended C9 at a device with empty `extra_info`. -/
theorem accessors_missing_capabilities_witness :
    card_serial_number
      { id := 62, address := "c9w", dev_type := PciDeviceType.standard,
        status := PciDeviceStatus.available } = .ok none ∧
    sriov_cap
      { id := 62, address := "c9w", dev_type := PciDeviceType.standard,
        status := PciDeviceStatus.available } = .ok (.obj []) ∧
    network_caps
      { id := 62, address := "c9w", dev_type := PciDeviceType.standard,
        status := PciDeviceStatus.available } = .ok (.arr []) :=
  accessors_missing_capabilities
    { id := 62, address := "c9w", dev_type := PciDeviceType.standard,
      status := PciDeviceStatus.available } rfl

/-! ## Claim C8: downgrade serialization of too-new statuses -/

/-- **C8 counterexample.** Serializing a primitive carrying the UNCLAIMABLE
status for target version 1.3 (older than 1.4) raises nothing: the
`< (1, 4)` block deletes `parent_addr` first, so the `< (1, 5)` status
check — guarded by `'parent_addr' in primitive` — is skipped and the
too-new status is passed through silently. -/
theorem obj_make_compatible_pre14_counterexample :
    verLt (1, 3) (1, 5) = true ∧
    obj_make_compatible
      { status := some PciDeviceStatus.unclaimable,
        parent_addr := some (some "a"), extra_info := some [] } (1, 3) =
      .ok { status := some PciDeviceStatus.unclaimable, parent_addr := none,
            extra_info := some [("phys_function", "a")] } :=
  ⟨rfl, rfl⟩

/-- `omcDropRequestId` only touches `request_id`. -/
theorem omcDropRequestId_fields (prim : PciDevicePrimitive)
    (tv : Nat × Nat) :
    (omcDropRequestId prim tv).parent_addr = prim.parent_addr ∧
    (omcDropRequestId prim tv).status = prim.status ∧
    (omcDropRequestId prim tv).dev_type = prim.dev_type := by
  unfold omcDropRequestId
  split <;> exact ⟨rfl, rfl, rfl⟩

/-- For targets at least 1.4, `omcDropParentAddr` is the identity. -/
theorem omcDropParentAddr_skip (prim : PciDevicePrimitive) (tv : Nat × Nat)
    (h : verLt tv (1, 4) = false) : omcDropParentAddr prim tv = prim := by
  unfold omcDropParentAddr
  rw [if_neg]
  simp [h]

/-- For targets older than 1.4, `parent_addr` is gone afterwards. -/
theorem omcDropParentAddr_none (prim : PciDevicePrimitive) (tv : Nat × Nat)
    (h : verLt tv (1, 4) = true) :
    (omcDropParentAddr prim tv).parent_addr = none := by
  unfold omcDropParentAddr
  rcases hpa : prim.parent_addr with _ | pa
  · rw [if_neg (by simp [hpa])]
    exact hpa
  · rw [if_pos ⟨h, by simp [hpa]⟩]
    rcases pa with _ | s <;> simp [hpa]

/-- `omcDropParentAddr` only touches `parent_addr` and `extra_info`. -/
theorem omcDropParentAddr_fields (prim : PciDevicePrimitive)
    (tv : Nat × Nat) :
    (omcDropParentAddr prim tv).status = prim.status ∧
    (omcDropParentAddr prim tv).dev_type = prim.dev_type := by
  unfold omcDropParentAddr
  split
  · split <;> exact ⟨rfl, rfl⟩
  · exact ⟨rfl, rfl⟩

/-- `raiseOnTooNewStatus` either passes or raises `ObjectActionError`. -/
theorem raiseOnTooNewStatus_cases (p : PciDevicePrimitive)
    (added : List PciDeviceStatus) :
    raiseOnTooNewStatus p added = .ok () ∨
    raiseOnTooNewStatus p added = .error .objectActionError := by
  cases hs : p.status with
  | none => exact Or.inl (by unfold raiseOnTooNewStatus; rw [hs])
  | some st =>
    by_cases hm : st ∈ added
    · exact Or.inr (by unfold raiseOnTooNewStatus; rw [hs]; exact if_pos hm)
    · exact Or.inl (by unfold raiseOnTooNewStatus; rw [hs]; exact if_neg hm)

/-- **C8 amended.** For a target older than 1.5, `obj_make_compatible`
raises `ObjectActionError` exactly when either the target version is in
[1.4, 1.5) with `parent_addr` present in the primitive and a status of
UNCLAIMABLE/UNAVAILABLE (the guarded status downgrade check), or the
primitive carries the VDPA `dev_type` (the separate `< (1, 7)` enum
check).  In every other case — in particular for every target older than
1.4, where the `< (1, 4)` block has deleted `parent_addr` and thereby
disabled the status check — serialization returns normally with the
status passed through unchanged. -/
theorem obj_make_compatible_status_raise_range (prim : PciDevicePrimitive)
    (tv : Nat × Nat) (h45 : verLt tv (1, 5) = true) :
    (((verLt tv (1, 4) = false ∧ prim.parent_addr.isSome = true ∧
       (prim.status = some PciDeviceStatus.unclaimable ∨
        prim.status = some PciDeviceStatus.unavailable)) ∨
      prim.dev_type = some PciDeviceType.vdpa) →
      obj_make_compatible prim tv = .error .objectActionError) ∧
    (¬ ((verLt tv (1, 4) = false ∧ prim.parent_addr.isSome = true ∧
       (prim.status = some PciDeviceStatus.unclaimable ∨
        prim.status = some PciDeviceStatus.unavailable)) ∨
      prim.dev_type = some PciDeviceType.vdpa) →
      ∃ p, obj_make_compatible prim tv = .ok p ∧
        p.status = prim.status) := by
  have e1 := omcDropRequestId_fields prim tv
  have h2st : (omcDropParentAddr (omcDropRequestId prim tv) tv).status =
      prim.status :=
    (omcDropParentAddr_fields _ _).1.trans e1.2.1
  have h2dt : (omcDropParentAddr (omcDropRequestId prim tv) tv).dev_type =
      prim.dev_type :=
    (omcDropParentAddr_fields _ _).2.trans e1.2.2
  have h3dt : (omcDropUuid (omcDropParentAddr (omcDropRequestId prim tv) tv)
      tv).dev_type = prim.dev_type := by
    unfold omcDropUuid
    split
    · exact h2dt
    · exact h2dt
  have h3st : (omcDropUuid (omcDropParentAddr (omcDropRequestId prim tv) tv)
      tv).status = prim.status := by
    unfold omcDropUuid
    split
    · exact h2st
    · exact h2st
  have h17 : verLt tv (1, 7) = true := by
    simp only [verLt, decide_eq_true_eq] at h45 ⊢
    omega
  constructor
  · intro hcond
    unfold obj_make_compatible
    rcases hcond with ⟨h14, hpa, hstat⟩ | hvdpa
    · -- the guarded status check runs and raises
      have e2 := omcDropParentAddr_skip (omcDropRequestId prim tv) tv h14
      rw [e2]
      rw [if_pos ⟨h45, by rw [e1.1]; exact hpa⟩]
      have hraise : raiseOnTooNewStatus (omcDropRequestId prim tv)
          [.unclaimable, .unavailable] = .error .objectActionError := by
        unfold raiseOnTooNewStatus
        rw [e1.2.1]
        rcases hstat with hs | hs <;> rw [hs] <;> rfl
      rw [hraise]
      rfl
    · -- the dev_type enum check raises (unless the status check already did)
      have hdt3 : (omcDropUuid (omcDropParentAddr (omcDropRequestId prim tv)
          tv) tv).dev_type = some PciDeviceType.vdpa := h3dt.trans hvdpa
      have hraise2 : raiseOnTooNewDevType
          (omcDropUuid (omcDropParentAddr (omcDropRequestId prim tv) tv) tv)
          [PciDeviceType.vdpa] = .error .objectActionError := by
        unfold raiseOnTooNewDevType
        rw [hdt3]
        rfl
      by_cases hc1 : (verLt tv (1, 5) = true ∧
          (omcDropParentAddr (omcDropRequestId prim tv)
            tv).parent_addr.isSome = true)
      · rcases raiseOnTooNewStatus_cases
            (omcDropParentAddr (omcDropRequestId prim tv) tv)
            [PciDeviceStatus.unclaimable, PciDeviceStatus.unavailable] with
          hfs | hfs
        · rw [if_pos hc1, hfs, if_pos ⟨h17, by rw [hdt3]; rfl⟩, hraise2]
          rfl
        · rw [if_pos hc1, hfs]
          rfl
      · rw [if_neg hc1, if_pos ⟨h17, by rw [hdt3]; rfl⟩, hraise2]
        rfl
  · intro hncond
    rcases not_or.mp hncond with ⟨hn1, hn2⟩
    have hok2 : raiseOnTooNewDevType
        (omcDropUuid (omcDropParentAddr (omcDropRequestId prim tv) tv) tv)
        [PciDeviceType.vdpa] = .ok () := by
      unfold raiseOnTooNewDevType
      rw [h3dt]
      cases hdt : prim.dev_type with
      | none => rfl
      | some t =>
        show (if t ∈ [PciDeviceType.vdpa] then
            (Except.error PciError.objectActionError : Except PciError Unit)
          else .ok ()) = .ok ()
        rw [if_neg]
        rw [List.mem_singleton]
        intro hv
        subst hv
        exact hn2 hdt
    unfold obj_make_compatible
    cases h14 : verLt tv (1, 4) with
    | true =>
      have h2pa := omcDropParentAddr_none (omcDropRequestId prim tv) tv h14
      rw [if_neg (by simp [h2pa])]
      by_cases h17c : (verLt tv (1, 7) = true ∧
          (omcDropUuid (omcDropParentAddr (omcDropRequestId prim tv) tv)
            tv).dev_type.isSome = true)
      · rw [if_pos h17c, hok2]
        exact ⟨_, rfl, h3st⟩
      · rw [if_neg h17c]
        exact ⟨_, rfl, h3st⟩
    | false =>
      have e2 := omcDropParentAddr_skip (omcDropRequestId prim tv) tv h14
      by_cases hpa : prim.parent_addr.isSome = true
      · have hraise_ok : raiseOnTooNewStatus
            (omcDropParentAddr (omcDropRequestId prim tv) tv)
            [PciDeviceStatus.unclaimable, PciDeviceStatus.unavailable] =
            .ok () := by
          unfold raiseOnTooNewStatus
          rw [h2st]
          cases hs : prim.status with
          | none => rfl
          | some st =>
            show (if st ∈ [PciDeviceStatus.unclaimable,
                PciDeviceStatus.unavailable] then
                (Except.error PciError.objectActionError :
                  Except PciError Unit)
              else .ok ()) = .ok ()
            rw [if_neg]
            intro hmem
            apply hn1
            refine ⟨h14, hpa, ?_⟩
            rcases List.mem_cons.mp hmem with h | h
            · exact Or.inl (by rw [hs, h])
            · rw [List.mem_singleton] at h
              exact Or.inr (by rw [hs, h])
        rw [if_pos ⟨h45, by rw [e2, e1.1]; exact hpa⟩, hraise_ok]
        by_cases h17c : (verLt tv (1, 7) = true ∧
            (omcDropUuid (omcDropParentAddr (omcDropRequestId prim tv) tv)
              tv).dev_type.isSome = true)
        · rw [if_pos h17c, hok2]
          exact ⟨_, rfl, h3st⟩
        · rw [if_neg h17c]
          exact ⟨_, rfl, h3st⟩
      · rw [if_neg (by
          intro hc
          apply hpa
          rw [← e1.1, ← e2]
          exact hc.2)]
        by_cases h17c : (verLt tv (1, 7) = true ∧
            (omcDropUuid (omcDropParentAddr (omcDropRequestId prim tv) tv)
              tv).dev_type.isSome = true)
        · rw [if_pos h17c, hok2]
          exact ⟨_, rfl, h3st⟩
        · rw [if_neg h17c]
          exact ⟨_, rfl, h3st⟩

/-- The amended C8, raising half, at target 1.4 with an UNAVAILABLE status
and `parent_addr` present (as an explicit null). -/
theorem obj_make_compatible_status_raise_range_witness :
    obj_make_compatible
      { status := some PciDeviceStatus.unavailable,
        parent_addr := some none } (1, 4) = .error .objectActionError :=
  (obj_make_compatible_status_raise_range
    { status := some PciDeviceStatus.unavailable, parent_addr := some none }
    (1, 4) rfl).1
    (Or.inl ⟨rfl, rfl, Or.inr rfl⟩)

/-! ## Claim C6: claim followed by an immediate free -/

/-- A successful `claim` implies the device was AVAILABLE at entry. -/
theorem claimDev_ok_status {self : PciDevice} {children : List PciDevice}
    {parent : Option PciDevice} {u : String} {r : ClaimResult}
    (h : claimDev self children parent u = .ok r) :
    self.status = PciDeviceStatus.available := by
  by_contra hav
  rw [claimDev.eq_def, if_pos hav] at h
  exact absurd h (by simp)

/-- Writing back the status a device already carries is the identity. -/
theorem set_status_eta {c : PciDevice} {s : PciDeviceStatus}
    (h : c.status = s) : { c with status := s } = c := by
  cases c
  simp_all

/-- A bulk update to a status every member already carries is the
identity. -/
theorem bulk_update_status_eq_self :
    ∀ (devs : List PciDevice) {s : PciDeviceStatus},
      (∀ c ∈ devs, c.status = s) → bulk_update_status devs s = devs
  | [], _, _ => rfl
  | c :: rest, s, h => by
    unfold bulk_update_status
    simp only [List.map_cons]
    rw [show ({ c with status := s } : PciDevice) = c from
          set_status_eta (h c (List.mem_cons_self c rest))]
    have := bulk_update_status_eq_self rest
      (fun x hx => h x (List.mem_cons_of_mem c hx))
    unfold bulk_update_status at this
    rw [this]

/-- Two bulk updates in a row keep only the second status. -/
theorem bulk_update_status_twice (devs : List PciDevice)
    (s1 s2 : PciDeviceStatus) :
    bulk_update_status (bulk_update_status devs s1) s2 =
      bulk_update_status devs s2 := by
  unfold bulk_update_status
  rw [List.map_map]
  rfl

/-- Shape of `free()` with no instance argument on a CLAIMED device. -/
theorem freeDev_claimed_none_parts (self : PciDevice)
    (children : List PciDevice) (parent : Option PciDevice)
    (sibs : List PciDevice) (hcl : self.status = PciDeviceStatus.claimed) :
    (freeDev self children parent sibs none).self = freedSelf self ∧
    (freeDev self children parent sibs none).children =
      (if self.dev_type = PciDeviceType.sriov_pf then
        bulk_update_status children PciDeviceStatus.available
       else children) ∧
    (freeDev self children parent sibs none).parent =
      (if (self.dev_type = PciDeviceType.sriov_vf ∨
           self.dev_type = PciDeviceType.vdpa) ∧ parent.isSome ∧
          (sibs.filter (fun vf => vf.id ≠ self.id)).all
            (fun vf => vf.is_available) then
        parent.map (fun p => { p with status := PciDeviceStatus.available })
       else parent) ∧
    ∃ l, (freeDev self children parent sibs none).result = .ok l := by
  rw [freeDev.eq_def, if_neg (by simp [hcl]), if_neg (by simp)]
  simp only [hcl]
  exact ⟨rfl, rfl, rfl, _, rfl⟩

/-- **C6 counterexample.** A PF with an UNAVAILABLE (inconsistent but
tolerated, bug 1969496) child: `claim` succeeds and alters the child to
UNCLAIMABLE; the immediate `free` then sets the child AVAILABLE — not
back to its pre-claim UNAVAILABLE value, so the claimed restoration
fails. -/
theorem claim_free_no_restore_counterexample :
    ({ id := 72, address := "c6v", dev_type := PciDeviceType.sriov_vf,
       status := PciDeviceStatus.unavailable,
       parent_addr := some "c6" } : PciDevice).status =
      PciDeviceStatus.unavailable ∧
    claimDev
      { id := 71, address := "c6", dev_type := PciDeviceType.sriov_pf,
        status := PciDeviceStatus.available }
      [{ id := 72, address := "c6v", dev_type := PciDeviceType.sriov_vf,
         status := PciDeviceStatus.unavailable, parent_addr := some "c6" }]
      none "u6" =
      .ok ⟨claimedSelf
            { id := 71, address := "c6", dev_type := PciDeviceType.sriov_pf,
              status := PciDeviceStatus.available } "u6",
           [{ id := 72, address := "c6v", dev_type := PciDeviceType.sriov_vf,
              status := PciDeviceStatus.unclaimable,
              parent_addr := some "c6" }], none⟩ ∧
    (freeDev
      (claimedSelf
        { id := 71, address := "c6", dev_type := PciDeviceType.sriov_pf,
          status := PciDeviceStatus.available } "u6")
      [{ id := 72, address := "c6v", dev_type := PciDeviceType.sriov_vf,
         status := PciDeviceStatus.unclaimable, parent_addr := some "c6" }]
      none [] none).children =
      [{ id := 72, address := "c6v", dev_type := PciDeviceType.sriov_vf,
         status := PciDeviceStatus.available, parent_addr := some "c6" }] ∧
    PciDeviceStatus.available ≠ PciDeviceStatus.unavailable := by
  refine ⟨rfl, rfl, rfl, by decide⟩

/-- **C6 amended.** When `claim(u)` succeeds *and the devices its cascade
touches were AVAILABLE beforehand* (every child for a PF; every sibling
other than the device for a VF/vDPA), an immediate `free()` returns the
device to AVAILABLE with `instance_uuid`/`request_id` cleared and
restores everything the claim altered: the children regain exactly their
pre-claim records, an AVAILABLE-then-UNCLAIMABLE parent is restored, and
the parent link is untouched whenever the claim did not cascade to it.
In general (see the counterexample) `free` sets cascade targets to
AVAILABLE rather than to their pre-claim statuses. -/
theorem claim_then_free_restores (self : PciDevice)
    (children : List PciDevice) (parent : Option PciDevice) (u : String)
    (r : ClaimResult) (sibs : List PciDevice)
    (hclaim : claimDev self children parent u = .ok r)
    (hch : ∀ c ∈ children, c.status = PciDeviceStatus.available)
    (hsibs : ∀ s ∈ sibs, s.id ≠ self.id →
      s.status = PciDeviceStatus.available) :
    (freeDev r.self r.children r.parent sibs none).self =
      { self with status := PciDeviceStatus.available,
                  instance_uuid := none, request_id := none } ∧
    (freeDev r.self r.children r.parent sibs none).children = children ∧
    (∀ p, parent = some p → p.status = PciDeviceStatus.available →
      (freeDev r.self r.children r.parent sibs none).parent = some p) ∧
    ((self.dev_type = PciDeviceType.sriov_pf ∨
      self.dev_type = PciDeviceType.standard) →
      (freeDev r.self r.children r.parent sibs none).parent = r.parent) ∧
    (∃ l, (freeDev r.self r.children r.parent sibs none).result = .ok l) := by
  have hav := claimDev_ok_status hclaim
  have hall : (sibs.filter (fun vf => vf.id ≠ self.id)).all
      (fun vf => vf.is_available) = true := by
    rw [List.all_eq_true]
    intro x hx
    have hm := List.mem_filter.mp hx
    have hne : x.id ≠ self.id := by simpa using hm.2
    simp [PciDevice.is_available, hsibs x hm.1 hne]
  by_cases hpf : self.dev_type = PciDeviceType.sriov_pf
  · -- PF branch of claim
    rw [claimDev.eq_def, if_neg (not_not_intro hav), if_pos hpf] at hclaim
    split at hclaim
    · have hr : r = ⟨claimedSelf self u,
          bulk_update_status children PciDeviceStatus.unclaimable,
          parent⟩ := by
        cases hclaim
        rfl
      subst hr
      obtain ⟨f1, f2, f3, f4⟩ := freeDev_claimed_none_parts
        (claimedSelf self u)
        (bulk_update_status children PciDeviceStatus.unclaimable)
        parent sibs rfl
      have hty : (claimedSelf self u).dev_type = PciDeviceType.sriov_pf := hpf
      refine ⟨f1, ?_, ?_, ?_, f4⟩
      · rw [f2, if_pos hty, bulk_update_status_twice,
          bulk_update_status_eq_self children hch]
      · intro p hp _
        rw [f3, if_neg (by simp [hty])]
        exact hp
      · intro _
        rw [f3, if_neg (by simp [hty])]
    · exact absurd hclaim (by simp)
  · by_cases hvf : (self.dev_type = PciDeviceType.sriov_vf ∨
        self.dev_type = PciDeviceType.vdpa)
    · rcases parent with _ | p
      · -- VF with unresolved parent
        rw [claimDev.eq_def, if_neg (not_not_intro hav), if_neg hpf,
          if_pos hvf] at hclaim
        have hr : r = ⟨claimedSelf self u, children, none⟩ := by
          cases hclaim
          rfl
        subst hr
        obtain ⟨f1, f2, f3, f4⟩ := freeDev_claimed_none_parts
          (claimedSelf self u) children none sibs rfl
        refine ⟨f1, ?_, ?_, ?_, f4⟩
        · rw [f2, if_neg (by simpa [claimedSelf] using hpf)]
        · intro p hp
          cases hp
        · intro _
          rw [f3, if_neg (by simp)]
      · -- VF with resolved parent
        have hinv : claimDev self children (some p) u =
            (if p.status = PciDeviceStatus.available ∨
                p.status = PciDeviceStatus.unclaimable ∨
                p.status = PciDeviceStatus.unavailable then
              .ok ⟨claimedSelf self u, children,
                   some (if p.status = PciDeviceStatus.available then
                     { p with status := PciDeviceStatus.unclaimable }
                   else p)⟩
            else .error .pfInvalidStatus) := by
          rw [claimDev.eq_def, if_neg (not_not_intro hav), if_neg hpf,
            if_pos hvf]
          rfl
        rw [hinv] at hclaim
        split at hclaim
        rename_i hps
        on_goal 2 => exact absurd hclaim (by simp)
        · have hr : r = ⟨claimedSelf self u, children,
              some (if p.status = PciDeviceStatus.available then
                { p with status := PciDeviceStatus.unclaimable }
              else p)⟩ := by
            cases hclaim
            rfl
          subst hr
          obtain ⟨f1, f2, f3, f4⟩ := freeDev_claimed_none_parts
            (claimedSelf self u) children
            (some (if p.status = PciDeviceStatus.available then
                { p with status := PciDeviceStatus.unclaimable }
              else p)) sibs rfl
          refine ⟨f1, ?_, ?_, ?_, f4⟩
          · rw [f2, if_neg (by simpa [claimedSelf] using hpf)]
          · intro q hq hqav
            have hqp : q = p := by
              injection hq with h
              exact h.symm
            subst hqp
            rw [f3, if_pos ⟨by simpa [claimedSelf] using hvf, by simp,
              by simpa [claimedSelf] using hall⟩, if_pos hqav]
            show some ({ q with status := PciDeviceStatus.available } :
              PciDevice) = some q
            rw [set_status_eta hqav]
          · intro hcase
            rcases hcase with h | h
            · exact absurd h hpf
            · rcases hvf with h2 | h2 <;> rw [h] at h2 <;>
                exact PciDeviceType.noConfusion h2
    · -- standard device
      rw [claimDev.eq_def, if_neg (not_not_intro hav), if_neg hpf,
        if_neg hvf] at hclaim
      have hr : r = ⟨claimedSelf self u, children, parent⟩ := by
        cases hclaim
        rfl
      subst hr
      obtain ⟨f1, f2, f3, f4⟩ := freeDev_claimed_none_parts
        (claimedSelf self u) children parent sibs rfl
      refine ⟨f1, ?_, ?_, ?_, f4⟩
      · rw [f2, if_neg (by simpa [claimedSelf] using hpf)]
      · intro p hp _
        rw [f3, if_neg (fun hcond =>
          hvf (by simpa [claimedSelf] using hcond.1))]
        exact hp
      · intro _
        rw [f3, if_neg (fun hcond =>
          hvf (by simpa [claimedSelf] using hcond.1))]

/-- Witness for the amended C6: claim then free of a PF with one
available child. -/
theorem claim_then_free_restores_witness :
    (freeDev
      (ClaimResult.mk
        (claimedSelf
          { id := 81, address := "c6w", dev_type := PciDeviceType.sriov_pf,
            status := PciDeviceStatus.available } "u6w")
        [{ id := 82, address := "c6wv", dev_type := PciDeviceType.sriov_vf,
           status := PciDeviceStatus.unclaimable,
           parent_addr := some "c6w" }] none).self
      (ClaimResult.mk
        (claimedSelf
          { id := 81, address := "c6w", dev_type := PciDeviceType.sriov_pf,
            status := PciDeviceStatus.available } "u6w")
        [{ id := 82, address := "c6wv", dev_type := PciDeviceType.sriov_vf,
           status := PciDeviceStatus.unclaimable,
           parent_addr := some "c6w" }] none).children
      (ClaimResult.mk
        (claimedSelf
          { id := 81, address := "c6w", dev_type := PciDeviceType.sriov_pf,
            status := PciDeviceStatus.available } "u6w")
        [{ id := 82, address := "c6wv", dev_type := PciDeviceType.sriov_vf,
           status := PciDeviceStatus.unclaimable,
           parent_addr := some "c6w" }] none).parent
      [] none).self =
      { ({ id := 81, address := "c6w", dev_type := PciDeviceType.sriov_pf,
           status := PciDeviceStatus.available } : PciDevice) with
        status := PciDeviceStatus.available,
        instance_uuid := none, request_id := none } ∧
    (freeDev
      (ClaimResult.mk
        (claimedSelf
          { id := 81, address := "c6w", dev_type := PciDeviceType.sriov_pf,
            status := PciDeviceStatus.available } "u6w")
        [{ id := 82, address := "c6wv", dev_type := PciDeviceType.sriov_vf,
           status := PciDeviceStatus.unclaimable,
           parent_addr := some "c6w" }] none).self
      (ClaimResult.mk
        (claimedSelf
          { id := 81, address := "c6w", dev_type := PciDeviceType.sriov_pf,
            status := PciDeviceStatus.available } "u6w")
        [{ id := 82, address := "c6wv", dev_type := PciDeviceType.sriov_vf,
           status := PciDeviceStatus.unclaimable,
           parent_addr := some "c6w" }] none).children
      (ClaimResult.mk
        (claimedSelf
          { id := 81, address := "c6w", dev_type := PciDeviceType.sriov_pf,
            status := PciDeviceStatus.available } "u6w")
        [{ id := 82, address := "c6wv", dev_type := PciDeviceType.sriov_vf,
           status := PciDeviceStatus.unclaimable,
           parent_addr := some "c6w" }] none).parent
      [] none).children =
      [{ id := 82, address := "c6wv", dev_type := PciDeviceType.sriov_vf,
         status := PciDeviceStatus.available, parent_addr := some "c6w" }] ∧
    (∀ p, (none : Option PciDevice) = some p →
      p.status = PciDeviceStatus.available →
      (freeDev
        (ClaimResult.mk
          (claimedSelf
            { id := 81, address := "c6w",
              dev_type := PciDeviceType.sriov_pf,
              status := PciDeviceStatus.available } "u6w")
          [{ id := 82, address := "c6wv",
             dev_type := PciDeviceType.sriov_vf,
             status := PciDeviceStatus.unclaimable,
             parent_addr := some "c6w" }] none).self
        (ClaimResult.mk
          (claimedSelf
            { id := 81, address := "c6w",
              dev_type := PciDeviceType.sriov_pf,
              status := PciDeviceStatus.available } "u6w")
          [{ id := 82, address := "c6wv",
             dev_type := PciDeviceType.sriov_vf,
             status := PciDeviceStatus.unclaimable,
             parent_addr := some "c6w" }] none).children
        (ClaimResult.mk
          (claimedSelf
            { id := 81, address := "c6w",
              dev_type := PciDeviceType.sriov_pf,
              status := PciDeviceStatus.available } "u6w")
          [{ id := 82, address := "c6wv",
             dev_type := PciDeviceType.sriov_vf,
             status := PciDeviceStatus.unclaimable,
             parent_addr := some "c6w" }] none).parent
        [] none).parent = some p) ∧
    ((({ id := 81, address := "c6w", dev_type := PciDeviceType.sriov_pf,
         status := PciDeviceStatus.available } :
         PciDevice).dev_type = PciDeviceType.sriov_pf ∨
      ({ id := 81, address := "c6w", dev_type := PciDeviceType.sriov_pf,
         status := PciDeviceStatus.available } :
         PciDevice).dev_type = PciDeviceType.standard) →
      (freeDev
        (ClaimResult.mk
          (claimedSelf
            { id := 81, address := "c6w",
              dev_type := PciDeviceType.sriov_pf,
              status := PciDeviceStatus.available } "u6w")
          [{ id := 82, address := "c6wv",
             dev_type := PciDeviceType.sriov_vf,
             status := PciDeviceStatus.unclaimable,
             parent_addr := some "c6w" }] none).self
        (ClaimResult.mk
          (claimedSelf
            { id := 81, address := "c6w",
              dev_type := PciDeviceType.sriov_pf,
              status := PciDeviceStatus.available } "u6w")
          [{ id := 82, address := "c6wv",
             dev_type := PciDeviceType.sriov_vf,
             status := PciDeviceStatus.unclaimable,
             parent_addr := some "c6w" }] none).children
        (ClaimResult.mk
          (claimedSelf
            { id := 81, address := "c6w",
              dev_type := PciDeviceType.sriov_pf,
              status := PciDeviceStatus.available } "u6w")
          [{ id := 82, address := "c6wv",
             dev_type := PciDeviceType.sriov_vf,
             status := PciDeviceStatus.unclaimable,
             parent_addr := some "c6w" }] none).parent
        [] none).parent =
        (ClaimResult.mk
          (claimedSelf
            { id := 81, address := "c6w",
              dev_type := PciDeviceType.sriov_pf,
              status := PciDeviceStatus.available } "u6w")
          [{ id := 82, address := "c6wv",
             dev_type := PciDeviceType.sriov_vf,
             status := PciDeviceStatus.unclaimable,
             parent_addr := some "c6w" }] none).parent) ∧
    (∃ l, (freeDev
        (ClaimResult.mk
          (claimedSelf
            { id := 81, address := "c6w",
              dev_type := PciDeviceType.sriov_pf,
              status := PciDeviceStatus.available } "u6w")
          [{ id := 82, address := "c6wv",
             dev_type := PciDeviceType.sriov_vf,
             status := PciDeviceStatus.unclaimable,
             parent_addr := some "c6w" }] none).self
        (ClaimResult.mk
          (claimedSelf
            { id := 81, address := "c6w",
              dev_type := PciDeviceType.sriov_pf,
              status := PciDeviceStatus.available } "u6w")
          [{ id := 82, address := "c6wv",
             dev_type := PciDeviceType.sriov_vf,
             status := PciDeviceStatus.unclaimable,
             parent_addr := some "c6w" }] none).children
        (ClaimResult.mk
          (claimedSelf
            { id := 81, address := "c6w",
              dev_type := PciDeviceType.sriov_pf,
              status := PciDeviceStatus.available } "u6w")
          [{ id := 82, address := "c6wv",
             dev_type := PciDeviceType.sriov_vf,
             status := PciDeviceStatus.unclaimable,
             parent_addr := some "c6w" }] none).parent
        [] none).result = .ok l) :=
  claim_then_free_restores
    { id := 81, address := "c6w", dev_type := PciDeviceType.sriov_pf,
      status := PciDeviceStatus.available }
    [{ id := 82, address := "c6wv", dev_type := PciDeviceType.sriov_vf,
       status := PciDeviceStatus.available, parent_addr := some "c6w" }]
    none "u6w"
    (ClaimResult.mk
      (claimedSelf
        { id := 81, address := "c6w", dev_type := PciDeviceType.sriov_pf,
          status := PciDeviceStatus.available } "u6w")
      [{ id := 82, address := "c6wv", dev_type := PciDeviceType.sriov_vf,
         status := PciDeviceStatus.unclaimable,
         parent_addr := some "c6w" }] none)
    [] rfl (by decide) (by decide)

/-! ## Claim C1: the owner/status invariant over call sequences -/

/-- **C1 counterexample.** From two freshly created devices, the sequence
claim PF, claim a standard device, retype/reparent the claimed standard
device under the claimed PF via `update_device`, then free the PF,
completes without raising yet leaves a device AVAILABLE with its
`instance_uuid` still set: `update_device` may change `dev_type` and
`parent_addr`, and the PF free bulk-sets every currently-linked child to
AVAILABLE without touching its owner. -/
theorem uuid_status_invariant_counterexample :
    InitWorld
      [{ id := 1, address := "a", dev_type := PciDeviceType.sriov_pf,
         status := PciDeviceStatus.available },
       { id := 3, address := "b", dev_type := PciDeviceType.standard,
         status := PciDeviceStatus.available }] ∧
    runOps
      [{ id := 1, address := "a", dev_type := PciDeviceType.sriov_pf,
         status := PciDeviceStatus.available },
       { id := 3, address := "b", dev_type := PciDeviceType.standard,
         status := PciDeviceStatus.available }]
      [.claimOp 1 "u1", .claimOp 3 "u2",
       .updateOp 3 [("dev_type", PyVal.typeV PciDeviceType.sriov_vf),
                    ("parent_addr", PyVal.strV "a")],
       .freeOp 1 none] =
      some
      [{ id := 1, address := "a", dev_type := PciDeviceType.sriov_pf,
         status := PciDeviceStatus.available },
       { id := 3, address := "b", dev_type := PciDeviceType.sriov_vf,
         status := PciDeviceStatus.available, instance_uuid := some "u2",
         parent_addr := some "a" }] ∧
    ∃ d ∈ [({ id := 1, address := "a", dev_type := PciDeviceType.sriov_pf,
              status := PciDeviceStatus.available } : PciDevice),
           { id := 3, address := "b", dev_type := PciDeviceType.sriov_vf,
             status := PciDeviceStatus.available,
             instance_uuid := some "u2", parent_addr := some "a" }],
      ¬ UuidStatusOk d :=
  ⟨by decide, rfl, by decide⟩

/-- The fields that determine identity and tree linkage. -/
def linkEq (a b : PciDevice) : Prop :=
  a.id = b.id ∧ a.address = b.address ∧ a.dev_type = b.dev_type ∧
  a.parent_addr = b.parent_addr

/-- A device currently granted to a workload. -/
def ownedDev (d : PciDevice) : Prop :=
  d.status = PciDeviceStatus.claimed ∨ d.status = PciDeviceStatus.allocated

/-- The inductive invariant of a device collection: ids and addresses
identify devices, every device satisfies the owner/status coupling, and
no child of a CLAIMED/ALLOCATED PF is itself owned. -/
structure WorldInv (w : List PciDevice) : Prop where
  idInj : ∀ x ∈ w, ∀ y ∈ w, x.id = y.id → x = y
  addrInj : ∀ x ∈ w, ∀ y ∈ w, x.address = y.address → x = y
  uuidOk : ∀ d ∈ w, UuidStatusOk d
  pfChild : ∀ p ∈ w, ∀ c ∈ w, p.dev_type = PciDeviceType.sriov_pf →
    ownedDev p → isChildOf c p → ¬ ownedDev c

/-- A fresh collection satisfies the invariant. -/
theorem initWorld_worldInv {w : List PciDevice} (h : InitWorld w) :
    WorldInv w := by
  obtain ⟨hpw, hfresh⟩ := h
  have hforall := List.Pairwise.forall
    (fun (a b : PciDevice) h => ⟨h.1.symm, h.2.symm⟩) hpw
  refine ⟨?_, ?_, ?_, ?_⟩
  · intro x hx y hy hid
    by_contra hne
    exact (hforall hx hy hne).1 hid
  · intro x hx y hy haddr
    by_contra hne
    exact (hforall hx hy hne).2 haddr
  · intro d hd
    obtain ⟨hs, hu⟩ := hfresh d hd
    constructor
    · intro h
      exact absurd hu h
    · intro h
      rcases h with h | h <;> rw [hs] at h <;> cases h
  · intro p hp c _ _ howned _
    obtain ⟨hs, _⟩ := hfresh p hp
    rcases howned with h | h <;> rw [hs] at h <;> cases h

/-- The write-back of `replaceDevs`, seen pointwise. -/
def patchD (upd : List PciDevice) (x : PciDevice) : PciDevice :=
  (upd.find? (fun u => u.id = x.id)).getD x

/-- `replaceDevs` is the pointwise patch. -/
theorem replaceDevs_eq_map (w upd : List PciDevice) :
    replaceDevs w upd = w.map (patchD upd) := rfl

/-- Membership in a patched collection. -/
theorem mem_replaceDevs {w upd : List PciDevice} {d' : PciDevice}
    (h : d' ∈ replaceDevs w upd) : ∃ x ∈ w, patchD upd x = d' := by
  rw [replaceDevs_eq_map] at h
  exact List.mem_map.mp h

/-- `find?` by id over a mapped filter of the collection, when ids
identify devices. -/
theorem find?_map_filter_id (w : List PciDevice) (f : PciDevice → PciDevice)
    (hf : ∀ y, (f y).id = y.id) (q : PciDevice → Bool) (x : PciDevice)
    (hinj : ∀ a ∈ w, a.id = x.id → a = x) :
    ((w.filter q).map f).find? (fun u => u.id = x.id) =
      if x ∈ w ∧ q x = true then some (f x) else none := by
  induction w with
  | nil => simp
  | cons a rest ih =>
    have hinj' : ∀ b ∈ rest, b.id = x.id → b = x :=
      fun b hb => hinj b (List.mem_cons_of_mem a hb)
    by_cases hq : q a = true
    · rw [List.filter_cons_of_pos hq, List.map_cons]
      by_cases hid : a.id = x.id
      · have hax : a = x := hinj a (List.mem_cons_self a rest) hid
        subst hax
        rw [List.find?_cons_of_pos _ (by simp [hf])]
        rw [if_pos ⟨List.mem_cons_self a rest, hq⟩]
      · rw [List.find?_cons_of_neg _ (by simp [hf, hid]), ih hinj']
        by_cases hx : x ∈ rest ∧ q x = true
        · rw [if_pos hx, if_pos ⟨List.mem_cons_of_mem a hx.1, hx.2⟩]
        · rw [if_neg hx, if_neg]
          rintro ⟨hmem, hqx⟩
          rcases List.mem_cons.mp hmem with h | h
          · exact hid (by rw [h])
          · exact hx ⟨h, hqx⟩
    · rw [List.filter_cons_of_neg hq, ih hinj']
      by_cases hx : x ∈ rest ∧ q x = true
      · rw [if_pos hx, if_pos ⟨List.mem_cons_of_mem a hx.1, hx.2⟩]
      · rw [if_neg hx, if_neg]
        rintro ⟨hmem, hqx⟩
        rcases List.mem_cons.mp hmem with h | h
        · rw [h] at hqx
          exact hq hqx
        · exact hx ⟨h, hqx⟩

/-- The patch a possibly-written-back parent applies to a device. -/
def parentPatch (popt : Option PciDevice) (x : PciDevice) : PciDevice :=
  match popt with
  | some pp => if pp.id = x.id then pp else x
  | none => x

/-- `parentPatch` with no parent in the update set. -/
theorem parentPatch_none (x : PciDevice) : parentPatch none x = x := rfl

/-- `parentPatch` with a written-back parent. -/
theorem parentPatch_some (pp x : PciDevice) :
    parentPatch (some pp) x = if pp.id = x.id then pp else x := rfl

/-- Pointwise description of the write-back for the update set every
engine call produces: the device itself, its (possibly rewritten)
children, and possibly its parent. -/
theorem patchD_shape (w : List PciDevice) (d selfPost : PciDevice)
    (q : PciDevice → Bool) (f : PciDevice → PciDevice)
    (popt : Option PciDevice) (x : PciDevice)
    (hinj : ∀ a ∈ w, ∀ b ∈ w, a.id = b.id → a = b)
    (hd : d ∈ w) (hx : x ∈ w)
    (hsp : selfPost.id = d.id) (hf : ∀ y, (f y).id = y.id) :
    patchD (selfPost :: ((w.filter q).map f ++ popt.toList)) x =
      (if x = d then selfPost
       else if q x = true then f x
       else parentPatch popt x) := by
  by_cases hxd : x = d
  · subst hxd
    rw [if_pos rfl]
    unfold patchD
    rw [List.find?_cons_of_pos _ (by simp [hsp])]
    rfl
  · rw [if_neg hxd]
    unfold patchD
    rw [List.find?_cons_of_neg _ (by
      simp only [decide_eq_true_eq]
      intro h
      have hxid : x.id = d.id := by rw [← hsp, h]
      exact hxd (hinj x hx d hd hxid))]
    rw [List.find?_append,
      find?_map_filter_id w f hf q x (fun a ha hid => hinj a ha x hx hid)]
    by_cases hq : q x = true
    · rw [if_pos ⟨hx, hq⟩, if_pos hq]
      rfl
    · rw [if_neg (by rintro ⟨_, h⟩; exact hq h), if_neg hq]
      cases popt with
      | none => rfl
      | some pp =>
        by_cases hid : pp.id = x.id
        · rw [show (some pp).toList = [pp] from rfl,
            List.find?_cons_of_pos _ (by simp [hid])]
          simp [parentPatch_some, hid]
        · rw [show (some pp).toList = [pp] from rfl,
            List.find?_cons_of_neg _ (by simp [hid])]
          simp [parentPatch_some, hid]

/-- `linkEq` is reflexive. -/
theorem linkEq_refl (a : PciDevice) : linkEq a a := ⟨rfl, rfl, rfl, rfl⟩

/-- What a resolved `parent_device` link means. -/
theorem parentDevice_some_inv {w : List PciDevice} {d p : PciDevice}
    (h : parentDevice w d = some p) :
    p ∈ w ∧ p.dev_type = PciDeviceType.sriov_pf ∧
    some p.address = d.parent_addr := by
  unfold parentDevice at h
  split at h
  · refine ⟨List.mem_of_find?_eq_some h, ?_⟩
    have := List.find?_some h
    simpa using this
  · cases h

/-- What an unresolved `parent_device` link of a VF means. -/
theorem parentDevice_none_inv {w : List PciDevice} {d : PciDevice}
    (h : parentDevice w d = none)
    (hvf : d.dev_type = PciDeviceType.sriov_vf ∨
           d.dev_type = PciDeviceType.vdpa) :
    ∀ y ∈ w, ¬(y.dev_type = PciDeviceType.sriov_pf ∧
      some y.address = d.parent_addr) := by
  unfold parentDevice at h
  rw [if_pos hvf] at h
  intro y hy hprop
  have := List.find?_eq_none.mp h y hy
  simp only [decide_eq_true_eq] at this
  exact this hprop

/-- Non-VF devices never resolve a parent link. -/
theorem parentDevice_eq_none {w : List PciDevice} {d : PciDevice}
    (h : ¬(d.dev_type = PciDeviceType.sriov_vf ∨
           d.dev_type = PciDeviceType.vdpa)) :
    parentDevice w d = none := by
  unfold parentDevice
  rw [if_neg h]

/-- A found device belongs to the collection and carries the id. -/
theorem findDev_inv {w : List PciDevice} {i : Nat} {d : PciDevice}
    (h : findDev w i = some d) : d ∈ w ∧ d.id = i := by
  refine ⟨List.mem_of_find?_eq_some h, ?_⟩
  have := List.find?_some h
  simpa using this

/-- The owner/status coupling for an unowned record with no owner. -/
theorem uuidStatusOk_unowned {d : PciDevice} (h1 : ¬ ownedDev d)
    (h2 : d.instance_uuid = none) : UuidStatusOk d := by
  constructor
  · intro h
    exact absurd h2 h
  · intro h
    exact absurd h h1

/-- The owner/status coupling for an owned record with an owner. -/
theorem uuidStatusOk_owned {d : PciDevice} (h1 : ownedDev d)
    {u : String} (h2 : d.instance_uuid = some u) : UuidStatusOk d := by
  constructor
  · intro _
    exact h1
  · intro _
    rw [h2]
    simp

/-- A device satisfying the coupling and not owned has no owner field. -/
theorem uuid_none_of_not_owned {d : PciDevice} (hok : UuidStatusOk d)
    (h : ¬ ownedDev d) : d.instance_uuid = none := by
  by_contra hne
  exact h (hok.mp hne)

/-- Patching with a single-device update set. -/
theorem patchD_single (w : List PciDevice) (d selfPost x : PciDevice)
    (hinj : ∀ a ∈ w, ∀ b ∈ w, a.id = b.id → a = b)
    (hd : d ∈ w) (hx : x ∈ w) (hsp : selfPost.id = d.id) :
    patchD [selfPost] x = if x = d then selfPost else x := by
  by_cases hxd : x = d
  · subst hxd
    rw [if_pos rfl]
    unfold patchD
    rw [List.find?_cons_of_pos _ (by simp [hsp])]
    rfl
  · rw [if_neg hxd]
    unfold patchD
    rw [List.find?_cons_of_neg _ (by
      simp only [decide_eq_true_eq]
      intro h
      have hxid : x.id = d.id := by rw [← hsp, h]
      exact hxd (hinj x hx d hd hxid))]
    rfl

/-- Core preservation argument: writing back the canonical update set of
an engine call — the device `d` (as `selfPost`), its children each
rewritten by `f`, and possibly a rewritten parent `popt` — keeps the
collection invariant, under the listed facts about the written records. -/
theorem worldInv_replace (w : List PciDevice) (d selfPost : PciDevice)
    (f : PciDevice → PciDevice) (popt : Option PciDevice)
    (hinv : WorldInv w) (hd : d ∈ w)
    (hspLink : linkEq selfPost d)
    (hfLink : ∀ y, linkEq (f y) y)
    (hspOk : UuidStatusOk selfPost)
    (hfOk : ∀ y ∈ w, isChildOf y d → UuidStatusOk (f y))
    (hchildSafe : d.dev_type = PciDeviceType.sriov_pf → ownedDev selfPost →
      ∀ y ∈ w, isChildOf y d → ¬ ownedDev (f y))
    (hfId : ∀ y, ¬ ownedDev (f y) ∨ f y = y)
    (hpnone : popt = none →
      (d.dev_type = PciDeviceType.sriov_vf ∨
       d.dev_type = PciDeviceType.vdpa) →
      ownedDev selfPost → parentDevice w d = none)
    (hpsome : ∀ pp, popt = some pp → ∃ p, parentDevice w d = some p ∧
      linkEq pp p ∧ ¬ ownedDev pp ∧ UuidStatusOk pp) :
    WorldInv (replaceDevs w
      (selfPost :: ((w.filter (fun c => isChildOf c d)).map f ++
        popt.toList))) := by
  have hinj := hinv.idInj
  have hshape : ∀ x ∈ w,
      patchD (selfPost :: ((w.filter (fun c => isChildOf c d)).map f ++
        popt.toList)) x =
      (if x = d then selfPost
       else if (fun c => decide (isChildOf c d)) x = true then f x
       else parentPatch popt x) :=
    fun x hx => patchD_shape w d selfPost _ f popt x hinj hd hx
      hspLink.1 (fun y => (hfLink y).1)
  have hlink : ∀ x ∈ w,
      linkEq (patchD (selfPost :: ((w.filter
        (fun c => isChildOf c d)).map f ++ popt.toList)) x) x := by
    intro x hx
    rw [hshape x hx]
    by_cases h1 : x = d
    · subst h1
      rw [if_pos rfl]
      exact hspLink
    · rw [if_neg h1]
      by_cases h2 : (fun c => decide (isChildOf c d)) x = true
      · rw [if_pos h2]
        exact hfLink x
      · rw [if_neg h2]
        cases hpo : popt with
        | none => exact linkEq_refl x
        | some pp =>
          rw [parentPatch_some]
          by_cases h3 : pp.id = x.id
          · rw [if_pos h3]
            obtain ⟨p, hpd, hlk, _, _⟩ := hpsome pp hpo
            have hpmem := (parentDevice_some_inv hpd).1
            have hpx : p = x := hinj p hpmem x hx (by rw [← hlk.1, h3])
            rw [← hpx]
            exact hlk
          · rw [if_neg h3]
            exact linkEq_refl x
  refine ⟨?_, ?_, ?_, ?_⟩
  · -- ids still identify devices
    intro x' hx' y' hy' hid
    obtain ⟨x, hx, rfl⟩ := mem_replaceDevs hx'
    obtain ⟨y, hy, rfl⟩ := mem_replaceDevs hy'
    have hxy : x = y := hinj x hx y hy
      (by rw [← (hlink x hx).1, ← (hlink y hy).1]; exact hid)
    rw [hxy]
  · -- addresses still identify devices
    intro x' hx' y' hy' haddr
    obtain ⟨x, hx, rfl⟩ := mem_replaceDevs hx'
    obtain ⟨y, hy, rfl⟩ := mem_replaceDevs hy'
    have hxy : x = y := hinv.addrInj x hx y hy
      (by rw [← (hlink x hx).2.1, ← (hlink y hy).2.1]; exact haddr)
    rw [hxy]
  · -- the owner/status coupling
    intro d' hd'
    obtain ⟨x, hx, rfl⟩ := mem_replaceDevs hd'
    rw [hshape x hx]
    by_cases h1 : x = d
    · rw [if_pos h1]
      exact hspOk
    · rw [if_neg h1]
      by_cases h2 : (fun c => decide (isChildOf c d)) x = true
      · rw [if_pos h2]
        exact hfOk x hx (of_decide_eq_true h2)
      · rw [if_neg h2]
        cases hpo : popt with
        | none => exact hinv.uuidOk x hx
        | some pp =>
          rw [parentPatch_some]
          by_cases h3 : pp.id = x.id
          · rw [if_pos h3]
            exact (hpsome pp hpo).choose_spec.2.2.2
          · rw [if_neg h3]
            exact hinv.uuidOk x hx
  · -- no child of an owned PF is owned
    intro p' hp' c' hc' hptype howned hchild
    obtain ⟨xp, hxp, hpeq⟩ := mem_replaceDevs hp'
    obtain ⟨xc, hxc, hceq⟩ := mem_replaceDevs hc'
    subst hpeq
    subst hceq
    have lp := hlink xp hxp
    have lc := hlink xc hxc
    have hxpty : xp.dev_type = PciDeviceType.sriov_pf := by
      rw [← lp.2.2.1]
      exact hptype
    have hchildw : isChildOf xc xp := by
      obtain ⟨t, pa⟩ := hchild
      refine ⟨?_, ?_⟩
      · rcases t with t | t
        · exact Or.inl (by rw [← lc.2.2.1]; exact t)
        · exact Or.inr (by rw [← lc.2.2.1]; exact t)
      · rw [← lc.2.2.2, pa, lp.2.1]
    intro hcown
    rw [hshape xp hxp] at howned
    rw [hshape xc hxc] at hcown
    by_cases hp1 : xp = d
    · -- the patched device itself is the owned PF
      subst hp1
      rw [if_pos rfl] at howned
      have hdty : xp.dev_type = PciDeviceType.sriov_pf := hxpty
      by_cases hc1 : xc = xp
      · subst hc1
        rcases hchildw.1 with t | t <;> rw [hdty] at t <;> cases t
      · rw [if_neg hc1] at hcown
        by_cases hc2 : (fun c => decide (isChildOf c xp)) xc = true
        · rw [if_pos hc2] at hcown
          exact hchildSafe hdty howned xc hxc (of_decide_eq_true hc2) hcown
        · exact absurd (decide_eq_true hchildw) hc2
    · rw [if_neg hp1] at howned
      by_cases hp2 : (fun c => decide (isChildOf c d)) xp = true
      · -- a child of d cannot be a PF
        have := (of_decide_eq_true hp2).1
        rcases this with t | t <;> rw [hxpty] at t <;> cases t
      · rw [if_neg hp2] at howned
        -- the device in the patched parent slot is never owned, so the
        -- owned PF must be an untouched device
        cases hpo : popt with
        | none =>
          rw [hpo, parentPatch_none] at howned
          by_cases hc1 : xc = d
          · subst hc1
            rw [if_pos rfl] at hcown
            obtain ⟨tcd, pac⟩ := hchildw
            have hnone := hpnone hpo tcd hcown
            exact (parentDevice_none_inv hnone tcd) xp hxp ⟨hxpty, pac.symm⟩
          · rw [if_neg hc1] at hcown
            by_cases hc2 : (fun c => decide (isChildOf c d)) xc = true
            · rw [if_pos hc2] at hcown
              rcases hfId xc with hnot | hid
              · exact hnot hcown
              · rw [hid] at hcown
                exact hinv.pfChild xp hxp xc hxc hxpty howned hchildw hcown
            · rw [if_neg hc2, hpo, parentPatch_none] at hcown
              exact hinv.pfChild xp hxp xc hxc hxpty howned hchildw hcown
        | some pp =>
          rw [hpo, parentPatch_some] at howned
          by_cases h3 : pp.id = xp.id
          · rw [if_pos h3] at howned
            obtain ⟨p, hpd, hlk, hpnotown, -⟩ := hpsome pp hpo
            exact hpnotown howned
          · rw [if_neg h3] at howned
            by_cases hc1 : xc = d
            · subst hc1
              rw [if_pos rfl] at hcown
              obtain ⟨tcd, pac⟩ := hchildw
              obtain ⟨p, hpd, hlk, -, -⟩ := hpsome pp hpo
              obtain ⟨hpmem, hpty, hpaddr⟩ := parentDevice_some_inv hpd
              have hpxp : p = xp := hinv.addrInj p hpmem xp hxp
                (by
                  have h1 : some p.address = some xp.address := by
                    rw [hpaddr, pac]
                  exact Option.some.inj h1)
              exact h3 (by rw [hlk.1, hpxp])
            · rw [if_neg hc1] at hcown
              by_cases hc2 : (fun c => decide (isChildOf c d)) xc = true
              · rw [if_pos hc2] at hcown
                rcases hfId xc with hnot | hid
                · exact hnot hcown
                · rw [hid] at hcown
                  exact hinv.pfChild xp hxp xc hxc hxpty howned hchildw hcown
              · rw [if_neg hc2, hpo, parentPatch_some] at hcown
                by_cases h4 : pp.id = xc.id
                · rw [if_pos h4] at hcown
                  obtain ⟨p, hpd, hlk, hpnotown, -⟩ := hpsome pp hpo
                  exact hpnotown hcown
                · rw [if_neg h4] at hcown
                  exact hinv.pfChild xp hxp xc hxc hxpty howned hchildw hcown

/-- The owner/status coupling only depends on status and owner. -/
theorem uuidStatusOk_congr {a b : PciDevice} (hs : a.status = b.status)
    (hu : a.instance_uuid = b.instance_uuid) (h : UuidStatusOk b) :
    UuidStatusOk a := by
  unfold UuidStatusOk at *
  rw [hs, hu]
  exact h

/-- Preservation for a call that writes back only the device itself
(`remove`, `update_device`), provided the write keeps the coupling and
does not newly grant the device. -/
theorem worldInv_replace_single (w : List PciDevice) (d selfPost : PciDevice)
    (hinv : WorldInv w) (hd : d ∈ w)
    (hspLink : linkEq selfPost d)
    (hspOk : UuidStatusOk selfPost)
    (hspOwn : ¬ ownedDev selfPost ∨ selfPost.status = d.status) :
    WorldInv (replaceDevs w [selfPost]) := by
  have hinj := hinv.idInj
  have hshape : ∀ x ∈ w, patchD [selfPost] x =
      if x = d then selfPost else x :=
    fun x hx => patchD_single w d selfPost x hinj hd hx hspLink.1
  have hlink : ∀ x ∈ w, linkEq (patchD [selfPost] x) x := by
    intro x hx
    rw [hshape x hx]
    by_cases h1 : x = d
    · subst h1
      rw [if_pos rfl]
      exact hspLink
    · rw [if_neg h1]
      exact linkEq_refl x
  refine ⟨?_, ?_, ?_, ?_⟩
  · intro x' hx' y' hy' hid
    obtain ⟨x, hx, rfl⟩ := mem_replaceDevs hx'
    obtain ⟨y, hy, rfl⟩ := mem_replaceDevs hy'
    have hxy : x = y := hinj x hx y hy
      (by rw [← (hlink x hx).1, ← (hlink y hy).1]; exact hid)
    rw [hxy]
  · intro x' hx' y' hy' haddr
    obtain ⟨x, hx, rfl⟩ := mem_replaceDevs hx'
    obtain ⟨y, hy, rfl⟩ := mem_replaceDevs hy'
    have hxy : x = y := hinv.addrInj x hx y hy
      (by rw [← (hlink x hx).2.1, ← (hlink y hy).2.1]; exact haddr)
    rw [hxy]
  · intro d' hd'
    obtain ⟨x, hx, rfl⟩ := mem_replaceDevs hd'
    rw [hshape x hx]
    by_cases h1 : x = d
    · rw [if_pos h1]
      exact hspOk
    · rw [if_neg h1]
      exact hinv.uuidOk x hx
  · intro p' hp' c' hc' hptype howned hchild
    obtain ⟨xp, hxp, hpeq⟩ := mem_replaceDevs hp'
    obtain ⟨xc, hxc, hceq⟩ := mem_replaceDevs hc'
    subst hpeq
    subst hceq
    have lp := hlink xp hxp
    have lc := hlink xc hxc
    have hxpty : xp.dev_type = PciDeviceType.sriov_pf := by
      rw [← lp.2.2.1]
      exact hptype
    have hchildw : isChildOf xc xp := by
      obtain ⟨t, pa⟩ := hchild
      refine ⟨?_, ?_⟩
      · rcases t with t | t
        · exact Or.inl (by rw [← lc.2.2.1]; exact t)
        · exact Or.inr (by rw [← lc.2.2.1]; exact t)
      · rw [← lc.2.2.2, pa, lp.2.1]
    intro hcown
    rw [hshape xp hxp] at howned
    rw [hshape xc hxc] at hcown
    by_cases hp1 : xp = d
    · subst hp1
      rw [if_pos rfl] at howned
      have howndev : ownedDev xp := by
        rcases hspOwn with hno | hst
        · exact absurd howned hno
        · unfold ownedDev at howned ⊢
          rw [← hst]
          exact howned
      by_cases hc1 : xc = xp
      · subst hc1
        rcases hchildw.1 with t | t <;> rw [hxpty] at t <;> cases t
      · rw [if_neg hc1] at hcown
        exact hinv.pfChild xp hxp xc hxc hxpty howndev hchildw hcown
    · rw [if_neg hp1] at howned
      by_cases hc1 : xc = d
      · subst hc1
        rw [if_pos rfl] at hcown
        have hcown' : ownedDev xc := by
          rcases hspOwn with hno | hst
          · exact absurd hcown hno
          · unfold ownedDev at hcown ⊢
            rw [← hst]
            exact hcown
        exact hinv.pfChild xp hxp xc hxc hxpty howned hchildw hcown'
      · rw [if_neg hc1] at hcown
        exact hinv.pfChild xp hxp xc hxc hxpty howned hchildw hcown

/-- The part of the claim guard that bounds the statuses of a PF's
children when the claim succeeds. -/
theorem claim_guard_child_status {children : List PciDevice}
    (hg : (nonFreeDependants children).isEmpty = true ∨
      (nonFreeDependants children).all (fun c =>
        c.status = PciDeviceStatus.unclaimable ∨
        c.status = PciDeviceStatus.unavailable) = true)
    {y : PciDevice} (hy : y ∈ children) :
    y.status = PciDeviceStatus.available ∨
    y.status = PciDeviceStatus.unclaimable ∨
    y.status = PciDeviceStatus.unavailable := by
  by_cases hav : y.status = PciDeviceStatus.available
  · exact Or.inl hav
  · have hmem : y ∈ nonFreeDependants children := by
      unfold nonFreeDependants
      refine List.mem_filter.mpr ⟨hy, ?_⟩
      simp [PciDevice.is_available, hav]
    rcases hg with hg | hg
    · rw [List.isEmpty_iff] at hg
      rw [hg] at hmem
      cases hmem
    · have := List.all_eq_true.mp hg y hmem
      exact Or.inr (by simpa using this)

/-- State parts of a `free` call that returned normally. -/
theorem freeDev_ok_parts (self : PciDevice) (children : List PciDevice)
    (parent : Option PciDevice) (siblings : List PciDevice)
    (inst : Option InstanceObj) (l : List Nat)
    (hok : (freeDev self children parent siblings inst).result = .ok l) :
    (self.status = PciDeviceStatus.allocated ∨
     self.status = PciDeviceStatus.claimed) ∧
    (freeDev self children parent siblings inst).self = freedSelf self ∧
    (freeDev self children parent siblings inst).children =
      (if self.dev_type = PciDeviceType.sriov_pf then
        bulk_update_status children PciDeviceStatus.available
       else children) ∧
    (freeDev self children parent siblings inst).parent =
      (if (self.dev_type = PciDeviceType.sriov_vf ∨
           self.dev_type = PciDeviceType.vdpa) ∧ parent.isSome ∧
          (siblings.filter (fun vf => vf.id ≠ self.id)).all
            (fun vf => vf.is_available) = true then
        parent.map (fun p => { p with status := PciDeviceStatus.available })
       else parent) := by
  by_cases h1 : (self.status ≠ PciDeviceStatus.allocated ∧
                 self.status ≠ PciDeviceStatus.claimed)
  · rw [freeDev.eq_def, if_pos h1] at hok
    cases hok
  · have hst : self.status = PciDeviceStatus.allocated ∨
        self.status = PciDeviceStatus.claimed := by
      rcases not_and_or.mp h1 with h | h
      · exact Or.inl (not_not.mp h)
      · exact Or.inr (not_not.mp h)
    by_cases h2 : inst.any (fun i => self.instance_uuid ≠ some i.uuid) = true
    · rw [freeDev.eq_def, if_neg h1, if_pos h2] at hok
      cases hok
    · rw [freeDev.eq_def, if_neg h1, if_neg h2]
      refine ⟨hst, ?_, ?_, ?_⟩ <;>
        · dsimp only
          split <;> (try split) <;> (try split) <;> rfl

/-- A resolved parent link forces the device to be a VF or VDPA. -/
theorem parentDevice_some_vf {w : List PciDevice} {d p : PciDevice}
    (h : parentDevice w d = some p) :
    d.dev_type = PciDeviceType.sriov_vf ∨ d.dev_type = PciDeviceType.vdpa := by
  by_contra hn
  rw [parentDevice_eq_none hn] at h
  cases h

/-- Every successfully completing, link-safe call preserves the
collection invariant. -/
theorem applyOp_preserves {w w' : List PciDevice} {op : Op}
    (hinv : WorldInv w) (hsafe : LinkSafe w op)
    (happ : applyOp w op = some w') : WorldInv w' := by
  cases op with
  | claimOp i u =>
    cases hfd : findDev w i with
    | none =>
      simp only [applyOp, hfd] at happ
      exact Option.noConfusion happ
    | some d0 =>
      simp only [applyOp, hfd, Option.bind_eq_bind, Option.some_bind] at happ
      replace happ : (match claimDev d0 (childDevices w d0)
          (parentDevice w d0) u with
        | .error _ => none
        | .ok r => some (replaceDevs w
            (r.self :: r.children ++ r.parent.toList))) = some w' := happ
      cases hcl : claimDev d0 (childDevices w d0) (parentDevice w d0) u with
      | error e =>
        rw [hcl] at happ
        cases happ
      | ok r =>
        rw [hcl] at happ
        replace happ := Option.some.inj happ
        subst happ
        obtain ⟨hdmem, hdid⟩ := findDev_inv hfd
        have hav := claimDev_ok_status hcl
        by_cases hpf : d0.dev_type = PciDeviceType.sriov_pf
        · rw [claimDev.eq_def, if_neg (not_not_intro hav), if_pos hpf] at hcl
          split at hcl
          · rename_i hguard
            have hr : r = ⟨claimedSelf d0 u,
                bulk_update_status (childDevices w d0)
                  PciDeviceStatus.unclaimable, parentDevice w d0⟩ := by
              cases hcl
              rfl
            subst hr
            refine worldInv_replace w d0 (claimedSelf d0 u)
              (fun c => { c with status := PciDeviceStatus.unclaimable })
              (parentDevice w d0) hinv hdmem ⟨rfl, rfl, rfl, rfl⟩
              (fun y => ⟨rfl, rfl, rfl, rfl⟩)
              (uuidStatusOk_owned (Or.inl rfl) rfl) ?_ ?_ ?_ ?_ ?_
            · intro y hy hchild
              have hmem : y ∈ childDevices w d0 :=
                List.mem_filter.mpr ⟨hy, decide_eq_true hchild⟩
              have hstat := claim_guard_child_status hguard hmem
              have hnotown : ¬ ownedDev y := by
                rcases hstat with h | h | h <;> simp [ownedDev, h]
              have hnone := uuid_none_of_not_owned (hinv.uuidOk y hy) hnotown
              exact uuidStatusOk_unowned (by simp [ownedDev]) hnone
            · intro _ _ y _ _
              simp [ownedDev]
            · intro y
              exact Or.inl (by simp [ownedDev])
            · intro _ hvf _
              rcases hvf with h | h <;> rw [hpf] at h <;> cases h
            · intro pp hpp
              rw [parentDevice_eq_none (by rw [hpf]; simp)] at hpp
              cases hpp
          · cases hcl
        · by_cases hvf : (d0.dev_type = PciDeviceType.sriov_vf ∨
              d0.dev_type = PciDeviceType.vdpa)
          · cases hpd : parentDevice w d0 with
            | none =>
              rw [claimDev.eq_def, if_neg (not_not_intro hav), if_neg hpf,
                if_pos hvf, hpd] at hcl
              have hr : r = ⟨claimedSelf d0 u, childDevices w d0, none⟩ := by
                cases hcl
                rfl
              subst hr
              have hres := worldInv_replace w d0 (claimedSelf d0 u)
                (fun y => y) none hinv hdmem ⟨rfl, rfl, rfl, rfl⟩
                (fun y => linkEq_refl y)
                (uuidStatusOk_owned (Or.inl rfl) rfl)
                (fun y hy _ => hinv.uuidOk y hy)
                (fun h => absurd h hpf)
                (fun y => Or.inr rfl)
                (fun _ _ _ => hpd)
                (fun pp hpp => by cases hpp)
              simpa [Option.toList] using hres
            | some p =>
              rw [claimDev.eq_def, if_neg (not_not_intro hav), if_neg hpf,
                if_pos hvf, hpd] at hcl
              replace hcl : (if p.status = PciDeviceStatus.available ∨
                  p.status = PciDeviceStatus.unclaimable ∨
                  p.status = PciDeviceStatus.unavailable then
                (Except.ok ⟨claimedSelf d0 u, childDevices w d0,
                  some (if p.status = PciDeviceStatus.available then
                    { p with status := PciDeviceStatus.unclaimable }
                  else p)⟩ : Except PciError ClaimResult)
                else .error .pfInvalidStatus) = .ok r := hcl
              split at hcl
              · rename_i hps
                have hr : r = ⟨claimedSelf d0 u, childDevices w d0,
                    some (if p.status = PciDeviceStatus.available then
                      { p with status := PciDeviceStatus.unclaimable }
                    else p)⟩ := by
                  cases hcl
                  rfl
                subst hr
                obtain ⟨hpmem, hpty, hpaddr⟩ := parentDevice_some_inv hpd
                have hpnotown : ¬ ownedDev p := by
                  rcases hps with h | h | h <;> simp [ownedDev, h]
                have hpuuid :=
                  uuid_none_of_not_owned (hinv.uuidOk p hpmem) hpnotown
                have hres := worldInv_replace w d0 (claimedSelf d0 u)
                  (fun y => y)
                  (some (if p.status = PciDeviceStatus.available then
                    { p with status := PciDeviceStatus.unclaimable }
                  else p)) hinv hdmem ⟨rfl, rfl, rfl, rfl⟩
                  (fun y => linkEq_refl y)
                  (uuidStatusOk_owned (Or.inl rfl) rfl)
                  (fun y hy _ => hinv.uuidOk y hy)
                  (fun h => absurd h hpf)
                  (fun y => Or.inr rfl)
                  (fun h _ _ => by cases h)
                  ?_
                · simpa [Option.toList] using hres
                · intro pp hpp
                  replace hpp := Option.some.inj hpp
                  subst hpp
                  refine ⟨p, hpd, ?_, ?_, ?_⟩
                  · split
                    · exact ⟨rfl, rfl, rfl, rfl⟩
                    · exact linkEq_refl p
                  · split
                    · simp [ownedDev]
                    · exact hpnotown
                  · split
                    · exact uuidStatusOk_unowned (by simp [ownedDev]) hpuuid
                    · exact hinv.uuidOk p hpmem
              · cases hcl
          · rw [claimDev.eq_def, if_neg (not_not_intro hav), if_neg hpf,
              if_neg hvf] at hcl
            have hr : r = ⟨claimedSelf d0 u, childDevices w d0,
                parentDevice w d0⟩ := by
              cases hcl
              rfl
            subst hr
            have hpd := @parentDevice_eq_none w d0 hvf
            have hres := worldInv_replace w d0 (claimedSelf d0 u)
              (fun y => y) (parentDevice w d0) hinv hdmem
              ⟨rfl, rfl, rfl, rfl⟩
              (fun y => linkEq_refl y)
              (uuidStatusOk_owned (Or.inl rfl) rfl)
              (fun y hy _ => hinv.uuidOk y hy)
              (fun h => absurd h hpf)
              (fun y => Or.inr rfl)
              (fun _ hv _ => absurd hv hvf)
              (fun pp hpp => by rw [hpd] at hpp; cases hpp)
            simpa [Option.toList] using hres
  | allocateOp i inst =>
    cases hfd : findDev w i with
    | none =>
      simp only [applyOp, hfd] at happ
      exact Option.noConfusion happ
    | some d0 =>
      simp only [applyOp, hfd, Option.bind_eq_bind, Option.some_bind] at happ
      cases hcl : allocateDev d0 (childDevices w d0) (parentDevice w d0)
          inst with
      | error e =>
        rw [hcl] at happ
        exact Option.noConfusion happ
      | ok r =>
        rw [hcl] at happ
        replace happ := Option.some.inj happ
        subst happ
        obtain ⟨hdmem, hdid⟩ := findDev_inv hfd
        by_cases h1 : (d0.status ≠ PciDeviceStatus.available ∧
            d0.status ≠ PciDeviceStatus.claimed)
        · rw [allocateDev.eq_def, if_pos h1] at hcl
          cases hcl
        · by_cases h2 : (d0.status = PciDeviceStatus.claimed ∧
              d0.instance_uuid ≠ some inst.uuid)
          · rw [allocateDev.eq_def, if_neg h1, if_pos h2] at hcl
            cases hcl
          · by_cases hpf : d0.dev_type = PciDeviceType.sriov_pf
            · rw [allocateDev.eq_def, if_neg h1, if_neg h2,
                if_pos hpf] at hcl
              split at hcl
              · rename_i hguard
                have hr : r = ⟨allocatedSelf d0 inst,
                    bulk_update_status (childDevices w d0)
                      PciDeviceStatus.unavailable, parentDevice w d0,
                    instWithDev inst d0.id⟩ := by
                  cases hcl
                  rfl
                subst hr
                refine worldInv_replace w d0 (allocatedSelf d0 inst)
                  (fun c => { c with status := PciDeviceStatus.unavailable })
                  (parentDevice w d0) hinv hdmem ⟨rfl, rfl, rfl, rfl⟩
                  (fun y => ⟨rfl, rfl, rfl, rfl⟩)
                  (uuidStatusOk_owned (Or.inr rfl) rfl) ?_ ?_ ?_ ?_ ?_
                · intro y hy hchild
                  have hmem : y ∈ childDevices w d0 :=
                    List.mem_filter.mpr ⟨hy, decide_eq_true hchild⟩
                  have hstat := List.all_eq_true.mp hguard y hmem
                  simp only [decide_eq_true_eq] at hstat
                  have hnotown : ¬ ownedDev y := by
                    rcases hstat with h | h <;> simp [ownedDev, h]
                  have hnone :=
                    uuid_none_of_not_owned (hinv.uuidOk y hy) hnotown
                  exact uuidStatusOk_unowned (by simp [ownedDev]) hnone
                · intro _ _ y _ _
                  simp [ownedDev]
                · intro y
                  exact Or.inl (by simp [ownedDev])
                · intro _ hvf _
                  rcases hvf with h | h <;> rw [hpf] at h <;> cases h
                · intro pp hpp
                  rw [parentDevice_eq_none (by rw [hpf]; simp)] at hpp
                  cases hpp
              · cases hcl
            · by_cases hvf : (d0.dev_type = PciDeviceType.sriov_vf ∨
                  d0.dev_type = PciDeviceType.vdpa)
              · cases hpd : parentDevice w d0 with
                | none =>
                  rw [allocateDev.eq_def, if_neg h1, if_neg h2, if_neg hpf,
                    if_pos hvf, hpd] at hcl
                  have hr : r = ⟨allocatedSelf d0 inst, childDevices w d0,
                      none, instWithDev inst d0.id⟩ := by
                    cases hcl
                    rfl
                  subst hr
                  have hres := worldInv_replace w d0 (allocatedSelf d0 inst)
                    (fun y => y) none hinv hdmem ⟨rfl, rfl, rfl, rfl⟩
                    (fun y => linkEq_refl y)
                    (uuidStatusOk_owned (Or.inr rfl) rfl)
                    (fun y hy _ => hinv.uuidOk y hy)
                    (fun h => absurd h hpf)
                    (fun y => Or.inr rfl)
                    (fun _ _ _ => hpd)
                    (fun pp hpp => by cases hpp)
                  simpa [Option.toList] using hres
                | some p =>
                  rw [allocateDev.eq_def, if_neg h1, if_neg h2, if_neg hpf,
                    if_pos hvf, hpd] at hcl
                  replace hcl : (if p.status = PciDeviceStatus.available ∨
                      p.status = PciDeviceStatus.unclaimable ∨
                      p.status = PciDeviceStatus.unavailable then
                    (Except.ok ⟨allocatedSelf d0 inst, childDevices w d0,
                      some { p with status := PciDeviceStatus.unavailable },
                      instWithDev inst d0.id⟩ :
                        Except PciError AllocateResult)
                    else .error .pfInvalidStatus) = .ok r := hcl
                  split at hcl
                  · rename_i hps
                    have hr : r = ⟨allocatedSelf d0 inst, childDevices w d0,
                        some { p with status := PciDeviceStatus.unavailable },
                        instWithDev inst d0.id⟩ := by
                      cases hcl
                      rfl
                    subst hr
                    obtain ⟨hpmem, hpty, hpaddr⟩ := parentDevice_some_inv hpd
                    have hpnotown : ¬ ownedDev p := by
                      rcases hps with h | h | h <;> simp [ownedDev, h]
                    have hpuuid :=
                      uuid_none_of_not_owned (hinv.uuidOk p hpmem) hpnotown
                    have hres := worldInv_replace w d0 (allocatedSelf d0 inst)
                      (fun y => y)
                      (some { p with status := PciDeviceStatus.unavailable })
                      hinv hdmem ⟨rfl, rfl, rfl, rfl⟩
                      (fun y => linkEq_refl y)
                      (uuidStatusOk_owned (Or.inr rfl) rfl)
                      (fun y hy _ => hinv.uuidOk y hy)
                      (fun h => absurd h hpf)
                      (fun y => Or.inr rfl)
                      (fun h _ _ => by cases h)
                      (fun pp hpp => by
                        replace hpp := Option.some.inj hpp
                        subst hpp
                        exact ⟨p, hpd, ⟨rfl, rfl, rfl, rfl⟩,
                          by simp [ownedDev],
                          uuidStatusOk_unowned (by simp [ownedDev]) hpuuid⟩)
                    simpa [Option.toList] using hres
                  · cases hcl
              · rw [allocateDev.eq_def, if_neg h1, if_neg h2, if_neg hpf,
                  if_neg hvf] at hcl
                have hr : r = ⟨allocatedSelf d0 inst, childDevices w d0,
                    parentDevice w d0, instWithDev inst d0.id⟩ := by
                  cases hcl
                  rfl
                subst hr
                have hpd := @parentDevice_eq_none w d0 hvf
                have hres := worldInv_replace w d0 (allocatedSelf d0 inst)
                  (fun y => y) (parentDevice w d0) hinv hdmem
                  ⟨rfl, rfl, rfl, rfl⟩
                  (fun y => linkEq_refl y)
                  (uuidStatusOk_owned (Or.inr rfl) rfl)
                  (fun y hy _ => hinv.uuidOk y hy)
                  (fun h => absurd h hpf)
                  (fun y => Or.inr rfl)
                  (fun _ hv _ => absurd hv hvf)
                  (fun pp hpp => by rw [hpd] at hpp; cases hpp)
                simpa [Option.toList] using hres
  | freeOp i inst =>
    cases hfd : findDev w i with
    | none =>
      simp only [applyOp, hfd] at happ
      exact Option.noConfusion happ
    | some d0 =>
      simp only [applyOp, hfd, Option.bind_eq_bind, Option.some_bind] at happ
      split at happ
      · exact Option.noConfusion happ
      · rename_i l hres
        replace happ := Option.some.inj happ
        subst happ
        obtain ⟨hdmem, hdid⟩ := findDev_inv hfd
        obtain ⟨hst, hself, hchn, hpar⟩ := freeDev_ok_parts _ _ _ _ _ _ hres
        have hd0own : ownedDev d0 := by
          rcases hst with h | h <;> simp [ownedDev, h]
        rw [hself, hchn, hpar]
        by_cases hpf : d0.dev_type = PciDeviceType.sriov_pf
        · have hnvf : ¬ (d0.dev_type = PciDeviceType.sriov_vf ∨
              d0.dev_type = PciDeviceType.vdpa) := by
            rw [hpf]
            simp
          rw [if_pos hpf, if_neg (by
            intro hcond
            exact hnvf hcond.1)]
          refine worldInv_replace w d0 (freedSelf d0)
            (fun c => { c with status := PciDeviceStatus.available })
            (parentDevice w d0) hinv hdmem ⟨rfl, rfl, rfl, rfl⟩
            (fun y => ⟨rfl, rfl, rfl, rfl⟩)
            (uuidStatusOk_unowned (by simp [ownedDev, freedSelf]) rfl)
            ?_ ?_ ?_ ?_ ?_
          · intro y hy hchild
            have hnotown := hinv.pfChild d0 hdmem y hy hpf hd0own hchild
            have hnone :=
              uuid_none_of_not_owned (hinv.uuidOk y hy) hnotown
            exact uuidStatusOk_unowned (by simp [ownedDev]) hnone
          · intro _ hown
            exact absurd hown (by simp [ownedDev, freedSelf])
          · intro y
            exact Or.inl (by simp [ownedDev])
          · intro _ hv _
            exact absurd hv hnvf
          · intro pp hpp
            rw [parentDevice_eq_none hnvf] at hpp
            cases hpp
        · rw [if_neg hpf]
          split
          · rename_i hc
            cases hpd : parentDevice w d0 with
            | none =>
              rw [hpd] at hc
              exact absurd hc.2.1 (by simp)
            | some p =>
              obtain ⟨hpmem, hpty, hpaddr⟩ := parentDevice_some_inv hpd
              have hpnotown : ¬ ownedDev p := fun hpo =>
                hinv.pfChild p hpmem d0 hdmem hpty hpo
                  ⟨hc.1, hpaddr.symm⟩ hd0own
              have hpuuid :=
                uuid_none_of_not_owned (hinv.uuidOk p hpmem) hpnotown
              have hres2 := worldInv_replace w d0 (freedSelf d0)
                (fun y => y)
                (some { p with status := PciDeviceStatus.available })
                hinv hdmem ⟨rfl, rfl, rfl, rfl⟩
                (fun y => linkEq_refl y)
                (uuidStatusOk_unowned (by simp [ownedDev, freedSelf]) rfl)
                (fun y hy _ => hinv.uuidOk y hy)
                (fun h => absurd h hpf)
                (fun y => Or.inr rfl)
                (fun h _ _ => by cases h)
                (fun pp hpp => by
                  replace hpp := Option.some.inj hpp
                  subst hpp
                  exact ⟨p, hpd, ⟨rfl, rfl, rfl, rfl⟩,
                    by simp [ownedDev],
                    uuidStatusOk_unowned (by simp [ownedDev]) hpuuid⟩)
              simpa [Option.toList] using hres2
          · rename_i hc
            have hres2 := worldInv_replace w d0 (freedSelf d0)
              (fun y => y) (parentDevice w d0) hinv hdmem
              ⟨rfl, rfl, rfl, rfl⟩
              (fun y => linkEq_refl y)
              (uuidStatusOk_unowned (by simp [ownedDev, freedSelf]) rfl)
              (fun y hy _ => hinv.uuidOk y hy)
              (fun h => absurd h hpf)
              (fun y => Or.inr rfl)
              (fun h _ _ => h)
              (fun pp hpp => by
                obtain ⟨hpmem, hpty, hpaddr⟩ := parentDevice_some_inv hpp
                have hvf2 := parentDevice_some_vf hpp
                have hpnotown : ¬ ownedDev pp := fun hpo =>
                  hinv.pfChild pp hpmem d0 hdmem hpty hpo
                    ⟨hvf2, hpaddr.symm⟩ hd0own
                exact ⟨pp, hpp, linkEq_refl pp, hpnotown,
                  hinv.uuidOk pp hpmem⟩)
            simpa [Option.toList] using hres2
  | removeOp i =>
    cases hfd : findDev w i with
    | none =>
      simp only [applyOp, hfd] at happ
      exact Option.noConfusion happ
    | some d0 =>
      simp only [applyOp, hfd, Option.bind_eq_bind, Option.some_bind] at happ
      split at happ
      · exact Option.noConfusion happ
      · rename_i d1 hrm
        replace happ := Option.some.inj happ
        subst happ
        obtain ⟨hdmem, hdid⟩ := findDev_inv hfd
        by_cases h1 : (d0.status ≠ PciDeviceStatus.available ∧
            d0.status ≠ PciDeviceStatus.unavailable ∧
            d0.status ≠ PciDeviceStatus.unclaimable)
        · rw [removeDev.eq_def, if_pos h1] at hrm
          cases hrm
        · by_cases h2 : d0.instance_uuid ≠ none
          · rw [removeDev.eq_def, if_neg h1, if_pos h2] at hrm
            cases hrm
          · rw [removeDev.eq_def, if_neg h1, if_neg h2] at hrm
            have hd1 : d1 =
                { d0 with
                  status := PciDeviceStatus.removed,
                  instance_uuid := none, request_id := none } :=
              (Except.ok.inj hrm).symm
            subst hd1
            exact worldInv_replace_single w d0
              { d0 with
                status := PciDeviceStatus.removed,
                instance_uuid := none, request_id := none }
              hinv hdmem ⟨rfl, rfl, rfl, rfl⟩
              (uuidStatusOk_unowned (by simp [ownedDev]) rfl)
              (Or.inl (by simp [ownedDev]))
  | updateOp i dd =>
    cases hfd : findDev w i with
    | none =>
      simp only [applyOp, hfd] at happ
      exact Option.noConfusion happ
    | some d0 =>
      simp only [applyOp, hfd, Option.bind_eq_bind, Option.some_bind] at happ
      replace happ := Option.some.inj happ
      subst happ
      obtain ⟨hdmem, hdid⟩ := findDev_inv hfd
      obtain ⟨hty, haddr, hpaddr⟩ := hsafe d0 hfd
      obtain ⟨hstat, huuid, hid⟩ := update_device_preserves d0 dd
      exact worldInv_replace_single w d0 ((update_device d0 dd).1)
        hinv hdmem ⟨hid, haddr, hty, hpaddr⟩
        (uuidStatusOk_congr hstat huuid (hinv.uuidOk d0 hdmem))
        (Or.inr hstat)

/-- **C1** (amended: the `update_device` steps of the sequence must leave
the identity/tree-linkage fields `dev_type`, `address` and `parent_addr`
unchanged, as recorded by `LinkSafe`; the counterexample shows the
unrestricted claim false).  For every collection reachable from freshly
created devices (AVAILABLE, no owner) by a sequence of claim / allocate /
free / remove / update_device calls that complete without raising, every
device has `instance_uuid` non-null if and only if its status is CLAIMED
or ALLOCATED — including across the cascaded status changes on parent and
child devices. -/
theorem uuid_status_invariant (w0 w : List PciDevice)
    (hinit : InitWorld w0) (hreach : ReachableSafe w0 w) :
    ∀ d ∈ w, UuidStatusOk d := by
  have hinv : WorldInv w := by
    induction hreach with
    | refl => exact initWorld_worldInv hinit
    | step hr hsafe happ ih => exact applyOp_preserves ih hsafe happ
  exact hinv.uuidOk

/-- The invariant theorem applied to a one-`claim` run on a concrete
fresh collection, at the one device of the resulting collection. -/
theorem uuid_status_invariant_witness :
    UuidStatusOk { id := 1, address := "a",
                   dev_type := PciDeviceType.standard,
                   status := PciDeviceStatus.claimed,
                   instance_uuid := some "u" } :=
  uuid_status_invariant
    [{ id := 1, address := "a", dev_type := PciDeviceType.standard,
       status := PciDeviceStatus.available }]
    [{ id := 1, address := "a", dev_type := PciDeviceType.standard,
       status := PciDeviceStatus.claimed, instance_uuid := some "u" }]
    (by decide)
    (@ReachableSafe.step _ _ _ (Op.claimOp 1 "u")
      (ReachableSafe.refl _) True.intro rfl)
    { id := 1, address := "a", dev_type := PciDeviceType.standard,
      status := PciDeviceStatus.claimed, instance_uuid := some "u" }
    (by decide)
